import Mathlib

/-!
# Verification of the amazon-order-scraper specification

This file shallowly embeds the parts of the amazon-order-scraper repository
that the specification's claims are about, and proves or refutes each claim:

* `src/money.ts` — monetary amount parsing/formatting (`parseMonetaryAmount`,
  `formatMonetaryAmount`);
* the compiled `order-builder.js` (the snapshot's authoritative `OrderBuilder`)
  — the mutable order accumulator and its `build()` validation;
* `src/invoice-parser/parser.ts` — the generic token state-machine engine
  (`newParserState`, `createParser`);
* `src/invoice-parser/main.ts` with `patterns.ts` — the concrete invoice
  parser states (`unknown`, `onlineOrder`, …);
* `src/scraper.ts` — the year-list cache staleness policy; and the older
  scraper generation that declares the `onBeforeOrderScrape` /
  `onBeforeYearScrape` control hooks.

JavaScript numbers that occur in this code are always integers or `NaN`, so
they are embedded as `Option Int` with `none` standing for `NaN`.  Fallible
operations (JS `throw`) are embedded as `Except String`.  Strings are
processed as `List Char` where proofs need structural reasoning.
-/

set_option maxRecDepth 4096

/-- A JavaScript number as it occurs in this codebase: an integer, or `NaN`
(represented by `none`).  No genuinely fractional values arise: every
division in the sources is immediately floored. -/
abbrev JsNum := Option Int

/-- JS `+` on numbers: `NaN` is absorbing. -/
def jsAdd : JsNum → JsNum → JsNum
  | some a, some b => some (a + b)
  | _, _ => none

/-- JS `-` on numbers: `NaN` is absorbing. -/
def jsSub : JsNum → JsNum → JsNum
  | some a, some b => some (a - b)
  | _, _ => none

/-- JS `*` on numbers: `NaN` is absorbing. -/
def jsMul : JsNum → JsNum → JsNum
  | some a, some b => some (a * b)
  | _, _ => none

/-- JS `x < c` for a number `x` and an integer constant `c`; any comparison
with `NaN` is `false`.  (`-0 < 0` is also `false` in JS, matching `0 < 0`
here because the embedding identifies `-0` with `0`.) -/
def jsLt (a : JsNum) (c : Int) : Bool :=
  match a with
  | some x => x < c
  | none => false

/-- JS truthiness of a number: `0` and `NaN` are falsy. -/
def jsTruthy : JsNum → Bool
  | some n => n ≠ 0
  | none => false

/-- The whitespace characters JS trims from the strings this program
handles (ASCII codes: space, tab, newline, carriage return). -/
def isJsSpace (c : Char) : Bool :=
  c.toNat = 32 || c.toNat = 9 || c.toNat = 10 || c.toNat = 13

/-- ASCII decimal digit test (codes 48-57, i.e. `'0'`-`'9'`). -/
def isDigitChar (c : Char) : Bool :=
  48 ≤ c.toNat && c.toNat ≤ 57

/-- `String.prototype.trim`: drop leading and trailing whitespace. -/
def trimChars (cs : List Char) : List Char :=
  ((cs.dropWhile isJsSpace).reverse.dropWhile isJsSpace).reverse

/-- `String.prototype.split(sep)` for a single-character separator. -/
def splitChars (sep : Char) : List Char → List (List Char)
  | [] => [[]]
  | c :: rest =>
    match splitChars sep rest with
    | [] => [[c]]
    | h :: t => if c = sep then [] :: h :: t else (c :: h) :: t

/-- Numeric value of a list of ASCII digits (most significant first). -/
def digitsVal (ds : List Char) : Nat :=
  ds.foldl (fun a c => a * 10 + (c.toNat - 48)) 0

/-- Fuel-driven digit rendering; `fuel` only needs to exceed the number of
digits, and `natDigits` always supplies enough. -/
def natDigitsAux : Nat → Nat → List Char
  | 0, _ => []
  | fuel + 1, n =>
    if n < 10 then [Char.ofNat (48 + n)]
    else natDigitsAux fuel (n / 10) ++ [Char.ofNat (48 + n % 10)]

/-- The decimal digits of `n`, most significant first — the embedding of JS
`Number.prototype.toString()` for a nonnegative integer. -/
def natDigits (n : Nat) : List Char :=
  natDigitsAux (n + 1) n

/-- JS `Number.prototype.toString()` for the integers of this embedding. -/
def intDecString (i : Int) : String :=
  if i < 0 then "-" ++ String.mk (natDigits i.natAbs)
  else String.mk (natDigits i.toNat)

/-- Rendering of a JS number into a template literal (`NaN` renders as
`"NaN"`). -/
def jsNumToString : JsNum → String
  | some i => intDecString i
  | none => "NaN"

/-- The longest digit prefix of a string as a number; `none` when there is
no leading digit. -/
def digitsOfChars (cs : List Char) : Option Nat :=
  match cs.takeWhile isDigitChar with
  | [] => none
  | ds => some (digitsVal ds)

/-- JS `parseInt(s, 10)`: skip leading whitespace, read an optional sign and
then the longest prefix of decimal digits; `NaN` when there is none.
(`parseInt("-0")` is `-0`, identified with `0` here; crucially JS's
`-0 < 0` is `false`, as is `0 < 0`.) -/
def parseIntChars (cs : List Char) : JsNum :=
  match cs.dropWhile isJsSpace with
  | '-' :: rest => (digitsOfChars rest).map (fun n => -(n : Int))
  | '+' :: rest => (digitsOfChars rest).map (fun n => (n : Int))
  | cs2 => (digitsOfChars cs2).map (fun n => (n : Int))

/-- `String.prototype.padStart(2, "0")`. -/
def padTwo (cs : List Char) : List Char :=
  if cs.length ≥ 2 then cs
  else if cs.length = 1 then '0' :: cs
  else ['0', '0']

/-- The parsed monetary amount record of `src/money.ts` (`MonetaryAmount`):
`value` keeps the trimmed input for round-trip fidelity; `cents` is the
authoritative value. -/
structure Money where
  currency : Option String
  value : String
  cents : JsNum
deriving Repr, DecidableEq

instance {ε α : Type} [DecidableEq ε] [DecidableEq α] : DecidableEq (Except ε α) := fun a b =>
  match a, b with
  | .ok x, .ok y =>
    if h : x = y then .isTrue (by rw [h]) else .isFalse (by simp [h])
  | .error x, .error y =>
    if h : x = y then .isTrue (by rw [h]) else .isFalse (by simp [h])
  | .ok _, .error _ => .isFalse (by simp)
  | .error _, .ok _ => .isFalse (by simp)

/-- The split-and-parse pipeline of `parseMonetaryAmount`
(`src/money.ts` lines 17-29): trim, strip `$` and `,`, split on `.`, and
parse each part (`""` counts as `0`). -/
def moneyParts (amount : String) : List JsNum :=
  let s := trimChars amount.toList
  let stripped := s.filter (fun c => c ≠ '$' && c ≠ ',')
  (splitChars '.' stripped).map
    (fun p => if p = [] then some 0 else parseIntChars p)

/-- The cents computation of `parseMonetaryAmount` (`src/money.ts` lines
35-36): `sign = parts[0] < 0 ? -1 : 1` and
`cents = parts[0] * 100 + (parts[1] || 0) * sign` (`||` turns a missing,
`NaN` or zero fraction into `0`). -/
def moneyCents (parts : List JsNum) : JsNum :=
  let p0 : JsNum := parts.headD (some 0)
  let sign : Int := if jsLt p0 0 then -1 else 1
  let p1 : Int :=
    match parts.get? 1 with
    | some (some n) => if n = 0 then 0 else n
    | some none => 0
    | none => 0
  jsAdd (jsMul p0 (some 100)) (some (p1 * sign))

/-- `parseMonetaryAmount` (`src/money.ts` lines 17-43), for string input
(the only form the embedded flows use): detect `$` on the trimmed input,
strip symbols and split via `moneyParts`, fail on more than two parts, and
compute the cents via `moneyCents`. -/
def parseMonetaryAmount (amount : String) : Except String Money :=
  if (moneyParts amount).length > 2 then
    .error ("Invalid monetary amount: " ++ amount)
  else
    .ok { currency :=
            if (trimChars amount.toList).contains '$' then some "$" else none
          value := String.mk (trimChars amount.toList)
          cents := moneyCents (moneyParts amount) }

/-- `formatMonetaryAmount` (`src/money.ts` lines 45-55) on an already-parsed
amount: `whole = Math.floor(cents / 100)`, `fraction = cents - whole * 100`,
rendered as a template literal — in particular an absent currency renders as
the literal text `"undefined"`, exactly as `${currency}` does in JS. -/
def formatMonetaryAmount (currency : Option String) (cents : JsNum) : String :=
  let whole : JsNum := cents.map (fun c => Int.fdiv c 100)
  let fraction : JsNum := jsSub cents (jsMul whole (some 100))
  (match currency with
   | some c => c
   | none => "undefined")
    ++ jsNumToString whole ++ "." ++ String.mk (padTwo (jsNumToString fraction).toList)

example : (parseMonetaryAmount "$8.00").map Money.cents = .ok (some 800) := by decide
example : (parseMonetaryAmount "-$10.54").map Money.cents = .ok (some (-1054)) := by decide
example : (parseMonetaryAmount "-$0.54").map Money.cents = .ok (some 54) := by decide
example : (parseMonetaryAmount "1,234.50").map Money.cents = .ok (some 123450) := by decide
example : formatMonetaryAmount (some "$") (some 800) = "$8.00" := by decide
example : formatMonetaryAmount (some "$") (some (-1054)) = "$-11.46" := by decide
example : formatMonetaryAmount none (some 123450) = "undefined1234.50" := by decide
example : (parseMonetaryAmount "$-11.46").map Money.cents = .ok (some (-1146)) := by decide

/-!
## A small regular-expression engine

`parser.ts` compiles string rules with `new RegExp(pattern, "i")` (so string
rules are case-insensitive) and uses RegExp literals as-is (case-sensitive).
Matching is JS `RegExp.prototype.exec`: scan start positions left to right,
greedy quantifiers, ordered alternation, numbered capture groups keeping the
last captured text.  The relevant regexes are transcribed into the `RE`
syntax below; `^` is the `anchored` flag of a search and `$` / `\b` are the
zero-width `look` assertion. -/

/-- Capture list: group index paired with captured text, most recent first. -/
abbrev Caps := List (Nat × String)

/-- Regular-expression syntax covering the constructs the transcribed
patterns use. -/
inductive RE where
  | eps
  | ch (c : Char)
  | cls (p : Char → Bool)
  | anyc
  | seq (a b : RE)
  | alt (a b : RE)
  | star (a : RE)
  | opt (a : RE)
  | grp (n : Nat) (a : RE)
  | look (p : List Char → Bool)

/-- Backtracking matcher in continuation-passing style.  `fuel` bounds the
recursion depth (it is structural so that the kernel can evaluate matches);
`reFuel` below always supplies enough for the token lengths at hand.
Greedy `star`/`opt` try the longer alternative first and `alt` tries the
left branch first, as JS does; an empty `star` iteration stops, matching
JS's empty-loop rule. -/
def reM (ci : Bool) : Nat → RE → List Char →
    (List Char → Caps → Option (List Char × Caps)) → Caps → Option (List Char × Caps)
  | 0, _, _, _, _ => none
  | fuel + 1, re, cs, k, caps =>
    match re with
    | .eps => k cs caps
    | .ch c =>
      match cs with
      | [] => none
      | d :: rest =>
        if (if ci then c.toLower = d.toLower else c = d) then k rest caps else none
    | .cls p =>
      match cs with
      | [] => none
      | d :: rest =>
        if p d || (ci && (p d.toLower || p d.toUpper)) then k rest caps else none
    | .anyc =>
      match cs with
      | [] => none
      | d :: rest => if d = '\n' then none else k rest caps
    | .seq a b => reM ci fuel a cs (fun rest caps2 => reM ci fuel b rest k caps2) caps
    | .alt a b => (reM ci fuel a cs k caps).orElse (fun _ => reM ci fuel b cs k caps)
    | .star a =>
      (reM ci fuel a cs
          (fun rest caps2 =>
            if rest.length < cs.length then reM ci fuel (.star a) rest k caps2 else none)
          caps).orElse
        (fun _ => k cs caps)
    | .opt a => (reM ci fuel a cs k caps).orElse (fun _ => k cs caps)
    | .grp n a =>
      reM ci fuel a cs
        (fun rest caps2 =>
          k rest ((n, String.mk (cs.take (cs.length - rest.length))) :: caps2))
        caps
    | .look p => if p cs then k cs caps else none

/-- Fuel that comfortably bounds the matcher's recursion depth for the
pattern sizes and token lengths occurring here. -/
def reFuel (cs : List Char) : Nat := 5000 + 100 * cs.length

/-- Try to match `re` at the start of `cs`; on success return the matched
text (JS `match[0]`) and the captures. -/
def reRunAt (ci : Bool) (re : RE) (cs : List Char) : Option (String × Caps) :=
  (reM ci (reFuel cs) re cs (fun rest caps => some (rest, caps)) []).map
    (fun rc => (String.mk (cs.take (cs.length - rc.1.length)), rc.2))

/-- JS `exec`: try each start position left to right (only position 0 when
the pattern is `^`-anchored). -/
def reSearch (ci anchored : Bool) (re : RE) : List Char → Option (String × Caps)
  | [] => reRunAt ci re []
  | c :: rest =>
    match reRunAt ci re (c :: rest) with
    | some r => some r
    | none => if anchored then none else reSearch ci anchored re rest

/-- Captured text of group `n` (JS keeps the last capture; the head of the
list is the most recent). -/
def getCap (caps : Caps) (n : Nat) : Option String :=
  (caps.find? (fun p => p.1 = n)).map Prod.snd

/-- Literal string as a regex. -/
def strRe (s : String) : RE :=
  s.toList.foldr (fun c r => RE.seq (.ch c) r) .eps

/-- Concatenation of a list of regexes. -/
def reCat (rs : List RE) : RE := rs.foldr .seq .eps

/-- `\d` -/
def digitRe : RE := .cls isDigitChar

/-- `{n}` repetition. -/
def repRe (n : Nat) (r : RE) : RE := reCat (List.replicate n r)

/-- `{1,2}` repetition (greedy). -/
def rep1to2 (r : RE) : RE := .seq r (.opt r)

/-- `{1,3}` repetition (greedy). -/
def rep1to3 (r : RE) : RE := .seq r (.opt (.seq r (.opt r)))

/-- `+` (greedy). -/
def plusRe (r : RE) : RE := .seq r (.star r)

/-- `$` at the end of a pattern. -/
def endRe : RE := .look (fun cs => cs = [])

/-- `[a-z]` (the `i` flag of the engine makes it match capitals too). -/
def lowerRe : RE := .cls (fun c => 'a' ≤ c && c ≤ 'z')

/-- `[A-Z]` -/
def upperRe : RE := .cls (fun c => 'A' ≤ c && c ≤ 'Z')

/-- `\b` occurring right after `\d{4}`: the next character, if any, must not
be a word character. -/
def wordEdgeRe : RE :=
  .look (fun cs =>
    match cs with
    | [] => true
    | c :: _ => !(c.isAlphanum || c = '_'))

/-!
### The patterns of `invoice-parser/patterns.ts`
-/

/-- `AMAZON_ORDER_ID_PATTERN = "\d{3}-\d{7}-\d{7}"` -/
def orderIdRe : RE :=
  reCat [repRe 3 digitRe, .ch '-', repRe 7 digitRe, .ch '-', repRe 7 digitRe]

/-- `MONEY_PATTERN = "-?\$?\d{1,3}(?:,\d{3})*(?:\.\d{2})?"` -/
def moneyRe : RE :=
  reCat [.opt (.ch '-'), .opt (.ch '$'), rep1to3 digitRe,
    .star (reCat [.ch ',', repRe 3 digitRe]),
    .opt (reCat [.ch '.', repRe 2 digitRe])]

/-- `DATE_MMMM_DD_YYYY_PATTERN = "(?<month>[a-z]+)\.? (?<day>\d{1,2}), (?<year>\d{4})"`;
`base`, `base+1`, `base+2` are the JS group numbers of `month`, `day`,
`year` within the enclosing pattern. -/
def dateMDYRe (base : Nat) : RE :=
  reCat [.grp base (plusRe lowerRe), .opt (.ch '.'), .ch ' ',
    .grp (base + 1) (rep1to2 digitRe), .ch ',', .ch ' ',
    .grp (base + 2) (repRe 4 digitRe)]

/-- `DATE_MMMM_DD_PATTERN = "(?<month>[a-z]+)\.? (?<day>\d{1,2})"` -/
def dateMDRe (base : Nat) : RE :=
  reCat [.grp base (plusRe lowerRe), .opt (.ch '.'), .ch ' ',
    .grp (base + 1) (rep1to2 digitRe)]

/-- `CREDIT_CARD_NAME_PATTERN = "(Visa|MasterCard|American Express|Discover)"`
(the pattern carries its own capture group, numbered `n`). -/
def ccNameRe (n : Nat) : RE :=
  .grp n (.alt (strRe "Visa")
    (.alt (strRe "MasterCard") (.alt (strRe "American Express") (strRe "Discover"))))

/-- How a parser-state rule matches a token: a literal `equals` rule, or a
regex rule.  String patterns get `ci = true` (compiled with the `"i"` flag
by `compileMatchProcessor`), RegExp literals get `ci = false`;
`anchored = true` transcribes a leading `^`. -/
inductive Matcher where
  | eqs (s : String)
  | rx (ci anchored : Bool) (re : RE)

/-- Evaluate a matcher on a token; on success return `match[0]` (for an
`equals` rule the token itself) and the captures. -/
def Matcher.run : Matcher → String → Option (String × Caps)
  | .eqs s, tok => if tok = s then some (tok, []) else none
  | .rx ci anchored re, tok => reSearch ci anchored re tok.toList

example :
    (Matcher.run
      (.rx true false
        (reCat [strRe "Amazon", .anyc, strRe "com - Order ", .grp 1 orderIdRe]))
      "Amazon.com - Order 002-7394758-9918293").map Prod.fst =
      some "Amazon.com - Order 002-7394758-9918293" := by decide
example :
    Matcher.run
      (.rx true false
        (reCat [strRe "Amazon", .anyc, strRe "com - Order ", .grp 1 orderIdRe]))
      "Amazon.com order number: 002-7394758-9918293" = none := by decide
example :
    (Matcher.run (.rx true true (reCat [.grp 1 moneyRe, endRe])) "$1,234.50").map
      (fun r => getCap r.2 1) = some (some "$1,234.50") := by decide
example :
    (Matcher.run (.rx true false (reCat [strRe "Order Placed: ", .grp 1 (dateMDYRe 2)]))
        "Order Placed: November 5, 1998").map
      (fun r => (getCap r.2 2, getCap r.2 3, getCap r.2 4)) =
      some (some "November", some "5", some "1998") := by decide
example :
    Matcher.run (.rx true true (reCat [.grp 1 moneyRe, endRe])) "Item(s) Subtotal: $77.15" =
      none := by decide

/-!
## The Order Builder

Embedding of the compiled `order-builder.js` (`src/unnamed/part_013`), the
snapshot's authoritative `OrderBuilder`.  JS private fields become structure
fields; methods that contain a `throw` return `Except String`; methods that
cannot throw are pure.  The `onAttributeCaptured` observer hook is
side-effect-only and is not modelled.
-/

/-- A partially filled order item (`Partial<OrderItem>`). -/
structure PartialItem where
  name : Option String := none
  price : Option String := none
  priceCents : Option JsNum := none
  quantity : Option JsNum := none
deriving Repr, DecidableEq

/-- A partially filled shipping address. -/
structure PartialAddress where
  name : Option String := none
  address : Option String := none
  city : Option String := none
  state : Option String := none
  zip : Option String := none
  country : Option String := none
deriving Repr, DecidableEq

/-- A partially filled shipment. -/
structure PartialShipment where
  date : Option String := none
  shippingAddress : PartialAddress := {}
  items : List PartialItem := []
deriving Repr, DecidableEq

/-- A partially filled payment; `type` is the JS string tag
(`"credit_card"`, `"gift_card"` or `"cash"`). -/
structure PartialPayment where
  type : Option String := none
  cardType : Option String := none
  last4 : Option String := none
  date : Option String := none
  amount : Option String := none
  amountCents : Option JsNum := none
deriving Repr, DecidableEq

/-- The builder state: the `#order` fields, `#payments`, `#shipments` and
the mode flags.  (`inferTaxesOn` embeds `#inferTaxes` and
`assumePaymentCoversFullAmountOn` embeds `#assumePaymentCoversFullAmount`;
the suffix avoids clashing with the methods of the same name.) -/
structure OrderBuilder where
  id : Option String := none
  currency : Option String := none
  date : Option String := none
  placedBy : Option String := none
  subtotal : Option String := none
  subtotalCents : Option JsNum := none
  tax : Option String := none
  taxCents : Option JsNum := none
  total : Option String := none
  totalCents : Option JsNum := none
  shippingCost : Option String := none
  shippingCostCents : Option JsNum := none
  payments : List PartialPayment := []
  shipments : List PartialShipment := []
  inferTaxesOn : Bool := false
  lastShipmentFinalized : Bool := false
  lastItemFinalized : Bool := false
  shippingAddressRequired : Bool := true
  shouldAdjustTotalBasedOnGiftCards : Bool := false
  assumedItemQuantity : Option JsNum := none
  assumePaymentCoversFullAmountOn : Bool := false
deriving Repr, DecidableEq

/-- Replace the last element of a list (no-op on an empty list, mirroring
JS index access past the end). -/
def modifyLast {α : Type} (xs : List α) (f : α → α) : List α :=
  match xs.getLast? with
  | none => xs
  | some x => xs.dropLast ++ [f x]

/-- `ensureShipment()`: push a fresh shipment when there is none or the last
one was finalized. -/
def OrderBuilder.ensureShipment (b : OrderBuilder) : OrderBuilder :=
  if b.shipments.length = 0 ∨ b.lastShipmentFinalized then
    { b with shipments := b.shipments ++ [{}], lastShipmentFinalized := false }
  else b

/-- Update the current (last) shipment in place. -/
def OrderBuilder.modLastShipment (b : OrderBuilder)
    (f : PartialShipment → PartialShipment) : OrderBuilder :=
  { b with shipments := modifyLast b.shipments f }

/-- The current (last) shipment; only read after `ensureShipment`. -/
def OrderBuilder.lastShipmentD (b : OrderBuilder) : PartialShipment :=
  b.shipments.getLast?.getD {}

/-- `ensureShipmentItem()`: ensure a shipment, then push a fresh item when
the shipment has none or the last item was finalized. -/
def OrderBuilder.ensureShipmentItem (b : OrderBuilder) : OrderBuilder :=
  let b := b.ensureShipment
  if b.lastShipmentD.items.length = 0 ∨ b.lastItemFinalized then
    { b.modLastShipment (fun s => { s with items := s.items ++ [{}] }) with
        lastItemFinalized := false }
  else b

/-- Update the current (last) item of the current shipment. -/
def OrderBuilder.modLastItem (b : OrderBuilder) (f : PartialItem → PartialItem) :
    OrderBuilder :=
  b.modLastShipment (fun s => { s with items := modifyLast s.items f })

/-- The current (last) item; only read after `ensureShipmentItem`. -/
def OrderBuilder.lastItemD (b : OrderBuilder) : PartialItem :=
  b.lastShipmentD.items.getLast?.getD {}

/-- Update the last payment in place. -/
def OrderBuilder.modLastPayment (b : OrderBuilder)
    (f : PartialPayment → PartialPayment) : OrderBuilder :=
  { b with payments := modifyLast b.payments f }

/-- The `MONTHS` table. -/
def MONTHS : List String :=
  ["January", "February", "March", "April", "May", "June", "July", "August",
   "September", "October", "November", "December"]

/-- `pad(value, 2)`. -/
def padTwoStr (s : String) : String := String.mk (padTwo s.toList)

/-- `/^\d{4}$/.test(s)` -/
def isFourDigits (s : String) : Bool :=
  s.toList.length = 4 && s.toList.all isDigitChar

/-- `normalizeDate(yearOrDateOrMatchArray, month, day)` at the only call
shape the embedded parser states use: three captured strings.  A month name
becomes its 1-based index; a 4-digit year string becomes a number and the
three parts are padded into `YYYY-MM-DD`; a non-4-digit year string is
returned as-is (the match-array overload is not exercised by these states
and is not embedded). -/
def OrderBuilder.normalizeDate (year month day : String) : String :=
  let monthStr : String :=
    match MONTHS.findIdx? (fun m => m = month) with
    | some i => padTwoStr (String.mk (natDigits (i + 1)))
    | none => padTwoStr month
  if isFourDigits year then
    String.mk (natDigits (digitsVal year.toList)) ++ "-" ++ monthStr ++ "-" ++ padTwoStr day
  else year

/-- `assumeItemQuantity(quantity = 1)` -/
def OrderBuilder.assumeItemQuantity (b : OrderBuilder) (q : Int) : OrderBuilder :=
  { b with assumedItemQuantity := some (some q) }

/-- `assumePaymentCoversFullAmount()` -/
def OrderBuilder.assumePaymentCoversFullAmount (b : OrderBuilder) : OrderBuilder :=
  { b with assumePaymentCoversFullAmountOn := true }

/-- `adjustTotalBasedOnGiftCard()` -/
def OrderBuilder.adjustTotalBasedOnGiftCard (b : OrderBuilder) : OrderBuilder :=
  { b with shouldAdjustTotalBasedOnGiftCards := true }

/-- `inferTaxes()` -/
def OrderBuilder.inferTaxes (b : OrderBuilder) : OrderBuilder :=
  { b with inferTaxesOn := true }

/-- `nothingWillBeShipped()` -/
def OrderBuilder.nothingWillBeShipped (b : OrderBuilder) : OrderBuilder :=
  { b with shippingAddressRequired := false }

/-- `finalizeShipment()` -/
def OrderBuilder.finalizeShipment (b : OrderBuilder) : OrderBuilder :=
  { b with lastShipmentFinalized := true }

/-- `finalizeItem()`: fill in an assumed quantity on the current item when
its quantity is missing, then mark the item finalized and clear the
assumption. -/
def OrderBuilder.finalizeItem (b : OrderBuilder) : OrderBuilder :=
  let b := b.ensureShipment
  let b :=
    match b.lastShipmentD.items.getLast? with
    | some item =>
      if item.quantity = none then
        match b.assumedItemQuantity with
        | some q => b.modLastItem (fun i => { i with quantity := some q })
        | none => b
      else b
    | none => b
  { b with lastItemFinalized := true, assumedItemQuantity := none }

/-- `addCreditCardPayment(cardType, last4)` -/
def OrderBuilder.addCreditCardPayment (b : OrderBuilder) (cardType last4 : String) :
    OrderBuilder :=
  { b with payments := b.payments ++
      [{ type := some "credit_card", cardType := some cardType, last4 := some last4 }] }

/-- `addGiftCardPayment()` (the payment's date is the order date captured so
far, possibly absent). -/
def OrderBuilder.addGiftCardPayment (b : OrderBuilder) : OrderBuilder :=
  { b with payments := b.payments ++ [{ type := some "gift_card", date := b.date }] }

/-- `addCashPayment()` -/
def OrderBuilder.addCashPayment (b : OrderBuilder) : OrderBuilder :=
  { b with payments := b.payments ++ [{ type := some "cash" }] }

/-- `setID(id)` -/
def OrderBuilder.setID (b : OrderBuilder) (id : String) : Except String OrderBuilder :=
  if b.id ≠ none ∧ b.id ≠ some id then .error "ID already set"
  else if b.id = none then .ok { b with id := some id }
  else .ok b

/-- `setCurrency(currency)` -/
def OrderBuilder.setCurrency (b : OrderBuilder) (c : String) : Except String OrderBuilder :=
  if b.currency ≠ none ∧ b.currency ≠ some c then .error "Currency already set"
  else if b.currency = none then .ok { b with currency := some c }
  else .ok b

/-- `setDate(year, month, day)` -/
def OrderBuilder.setDate (b : OrderBuilder) (year month day : String) :
    Except String OrderBuilder :=
  let date := OrderBuilder.normalizeDate year month day
  if b.date ≠ none ∧ b.date ≠ some date then .error "Date already set"
  else if b.date = none then .ok { b with date := some date }
  else .ok b

/-- `setPlacedBy(value)` (assigns unconditionally after the conflict check). -/
def OrderBuilder.setPlacedBy (b : OrderBuilder) (v : String) : Except String OrderBuilder :=
  if b.placedBy ≠ none ∧ b.placedBy ≠ some v then .error "Placed by already set"
  else .ok { b with placedBy := some v }

/-- `setItemName(value)`: writes the current item's name with no conflict
check (the method contains no `throw`). -/
def OrderBuilder.setItemName (b : OrderBuilder) (v : String) : OrderBuilder :=
  (b.ensureShipmentItem).modLastItem (fun i => { i with name := some v })

/-- `setItemQuantity(value)` for a captured string: `parseInt` it and write
the current item's quantity with no conflict check. -/
def OrderBuilder.setItemQuantity (b : OrderBuilder) (v : String) : OrderBuilder :=
  (b.ensureShipmentItem).modLastItem
    (fun i => { i with quantity := some (parseIntChars v.toList) })

/-- `setShippingDate(year, month, day)`: overwrites the current shipment's
date unconditionally (no conflict check; the method contains no `throw`). -/
def OrderBuilder.setShippingDate (b : OrderBuilder) (year month day : String) :
    OrderBuilder :=
  let date := OrderBuilder.normalizeDate year month day
  (b.ensureShipment).modLastShipment (fun s => { s with date := some date })

/-- JS `Math.floor(a / b)` for the division in `setItemPrice`; `b` is the
numeric coercion of a captured digit string, so it is a nonnegative integer
(a zero divisor would give `Infinity` in JS, which this embedding collapses
to `NaN`; no embedded flow divides by zero). -/
def jsFloorDiv (a b : JsNum) : JsNum :=
  match a, b with
  | some x, some y => if y = 0 then none else some (Int.fdiv x y)
  | _, _ => none

/-- The quantity-free path of `setItemPrice(value)`: ensure an item, parse,
check for a conflicting already-set price, and record `price`/`priceCents`. -/
def OrderBuilder.setItemPriceCore (b : OrderBuilder) (value : String) :
    Except String OrderBuilder := do
  let b := b.ensureShipmentItem
  let m ← parseMonetaryAmount value
  let item := b.lastItemD
  if item.priceCents ≠ none ∧ item.priceCents ≠ some m.cents then
    .error ("Price already set (was " ++ jsNumToString (item.priceCents.getD none)
      ++ ", trying to set to " ++ jsNumToString m.cents)
  else
    .ok (b.modLastItem (fun i => { i with price := some m.value, priceCents := some m.cents }))

/-- `setItemPrice(value, quantity?)`.  With a quantity (always a captured
digit string, never strictly equal to the number `1`), the per-unit price is
`Math.floor(priceCents / quantity)` and the method re-enters itself with the
reformatted per-unit value before recording the quantity. -/
def OrderBuilder.setItemPrice (b : OrderBuilder) (value : String)
    (quantity : Option String) : Except String OrderBuilder := do
  let b := b.ensureShipmentItem
  let m ← parseMonetaryAmount value
  let item := b.lastItemD
  if item.priceCents ≠ none ∧ item.priceCents ≠ some m.cents then
    .error ("Price already set (was " ++ jsNumToString (item.priceCents.getD none)
      ++ ", trying to set to " ++ jsNumToString m.cents)
  else
    match quantity with
    | none =>
      .ok (b.modLastItem (fun i => { i with price := some m.value, priceCents := some m.cents }))
    | some q =>
      let priceCents := jsFloorDiv m.cents (parseIntChars q.toList)
      let value2 := formatMonetaryAmount m.currency priceCents
      let b ← b.setItemPriceCore value2
      .ok (b.setItemQuantity q)

/-- `setNextShippingAddressField(value)`: fill the first unset address field
in the fixed order name, address, city, state, zip, country; all filled is a
hard error. -/
def OrderBuilder.setNextShippingAddressField (b : OrderBuilder) (value : String) :
    Except String OrderBuilder :=
  let b := b.ensureShipment
  let a := b.lastShipmentD.shippingAddress
  if a.name = none then
    .ok (b.modLastShipment (fun s => { s with shippingAddress := { a with name := some value } }))
  else if a.address = none then
    .ok (b.modLastShipment (fun s => { s with shippingAddress := { a with address := some value } }))
  else if a.city = none then
    .ok (b.modLastShipment (fun s => { s with shippingAddress := { a with city := some value } }))
  else if a.state = none then
    .ok (b.modLastShipment (fun s => { s with shippingAddress := { a with state := some value } }))
  else if a.zip = none then
    .ok (b.modLastShipment (fun s => { s with shippingAddress := { a with zip := some value } }))
  else if a.country = none then
    .ok (b.modLastShipment (fun s => { s with shippingAddress := { a with country := some value } }))
  else .error ("Unexpected shipping address value: " ++ value)

/-- `setPaymentAmount(amount)` on the last payment (the embedded flows never
call it with no payment recorded; that would crash in JS and is an error
here). -/
def OrderBuilder.setPaymentAmount (b : OrderBuilder) (amount : String) :
    Except String OrderBuilder := do
  let m ← parseMonetaryAmount amount
  match b.payments.getLast? with
  | none => .error "TypeError: no payment recorded"
  | some p =>
    if p.amount ≠ none ∧ p.amount ≠ some m.value then
      .error ("Payment amount already set (was " ++ jsNumToString (p.amountCents.getD none)
        ++ ", trying to set to " ++ jsNumToString m.cents ++ ")")
    else if p.amount = none then
      .ok (b.modLastPayment (fun q => { q with amount := some m.value, amountCents := some m.cents }))
    else .ok b

/-- `setPaymentDate(year, month, day)` on the last payment. -/
def OrderBuilder.setPaymentDate (b : OrderBuilder) (year month day : String) :
    Except String OrderBuilder :=
  let date := OrderBuilder.normalizeDate year month day
  match b.payments.getLast? with
  | none => .error "TypeError: no payment recorded"
  | some p =>
    if p.date ≠ none ∧ p.date ≠ some date then .error "Payment date already set"
    else if p.date = none then
      .ok (b.modLastPayment (fun q => { q with date := some date }))
    else .ok b

/-- `setShippingAddressName(name)` -/
def OrderBuilder.setShippingAddressName (b : OrderBuilder) (name : String) :
    Except String OrderBuilder :=
  let b := b.ensureShipment
  let a := b.lastShipmentD.shippingAddress
  if a.name ≠ none ∧ a.name ≠ some name then .error "Shipping name already set"
  else if a.name = none then
    .ok (b.modLastShipment (fun s => { s with shippingAddress := { a with name := some name } }))
  else .ok b

/-- `setShippingCity(city)` -/
def OrderBuilder.setShippingCity (b : OrderBuilder) (city : String) :
    Except String OrderBuilder :=
  let b := b.ensureShipment
  let a := b.lastShipmentD.shippingAddress
  if a.city ≠ none ∧ a.city ≠ some city then .error "Shipping city already set"
  else if a.city = none then
    .ok (b.modLastShipment (fun s => { s with shippingAddress := { a with city := some city } }))
  else .ok b

/-- `setShippingState(state)` -/
def OrderBuilder.setShippingState (b : OrderBuilder) (st : String) :
    Except String OrderBuilder :=
  let b := b.ensureShipment
  let a := b.lastShipmentD.shippingAddress
  if a.state ≠ none ∧ a.state ≠ some st then .error "Shipping state already set"
  else if a.state = none then
    .ok (b.modLastShipment (fun s => { s with shippingAddress := { a with state := some st } }))
  else .ok b

/-- `setShippingZip(zip)` -/
def OrderBuilder.setShippingZip (b : OrderBuilder) (zip : String) :
    Except String OrderBuilder :=
  let b := b.ensureShipment
  let a := b.lastShipmentD.shippingAddress
  if a.zip ≠ none ∧ a.zip ≠ some zip then .error "Shipping zip already set"
  else if a.zip = none then
    .ok (b.modLastShipment (fun s => { s with shippingAddress := { a with zip := some zip } }))
  else .ok b

/-- `setShippingCountry(country)` -/
def OrderBuilder.setShippingCountry (b : OrderBuilder) (c : String) :
    Except String OrderBuilder :=
  let b := b.ensureShipment
  let a := b.lastShipmentD.shippingAddress
  if a.country ≠ none ∧ a.country ≠ some c then .error "Shipping country already set"
  else if a.country = none then
    .ok (b.modLastShipment (fun s => { s with shippingAddress := { a with country := some c } }))
  else .ok b

/-- `fullShippingAddressNotAvailable()`: default every unset address field
to the empty string, then, when the address line contains commas, split it
into city/state parts. -/
def OrderBuilder.fullShippingAddressNotAvailable (b : OrderBuilder) : OrderBuilder :=
  let b := b.ensureShipment
  let a := b.lastShipmentD.shippingAddress
  let a : PartialAddress :=
    { name := some (a.name.getD ""), address := some (a.address.getD "")
      city := some (a.city.getD ""), state := some (a.state.getD "")
      zip := some (a.zip.getD ""), country := some (a.country.getD "") }
  let parts := (splitChars ',' (a.address.getD "").toList).map
    (fun p => String.mk (trimChars p))
  let a :=
    if parts.length > 1 then
      { a with address := some ""
               state := parts.getLast?
               city := some (String.intercalate ", " parts.dropLast) }
    else a
  b.modLastShipment (fun s => { s with shippingAddress := a })

/-- Modelled from the spec: `setShippingCityStateZip(city, state, zip)` is
called by the current `main.ts` shipping state, but the current
`order-builder.ts` is absent from the snapshot and the compiled builder
(`part_013`) predates the method.  §4.4 says the shipping state "consumes a
city/state/zip line matched by a single regex with named groups"; the
previous compiled parser generation recorded exactly these three fields via
the individual conflict-checked setters, which is how it is modelled. -/
def OrderBuilder.setShippingCityStateZip (b : OrderBuilder) (city st zip : String) :
    Except String OrderBuilder := do
  let b ← b.setShippingCity city
  let b ← b.setShippingState st
  b.setShippingZip zip

/-- Modelled from the spec: `resetPaymentInformation()` is called by the
current `main.ts` when a "Credit Card transactions" section shows that
detailed payment data is available after payment info was already assumed
("It's possible that we've already decided to infer payment information,
but this invoice has lots of detail for us--let's use it"); the current
`order-builder.ts` is absent from the snapshot.  Modelled as discarding the
accumulated payments and the covers-full-amount assumption. -/
def OrderBuilder.resetPaymentInformation (b : OrderBuilder) : OrderBuilder :=
  { b with payments := [], assumePaymentCoversFullAmountOn := false }

/-- `setShippingCost(value)` (the conflict check is on cents; the write is
guarded by the unset string). -/
def OrderBuilder.setShippingCost (b : OrderBuilder) (value : String) :
    Except String OrderBuilder := do
  let m ← parseMonetaryAmount value
  if b.shippingCostCents ≠ none ∧ b.shippingCostCents ≠ some m.cents then
    .error "Shipping cost already set"
  else if b.shippingCost = none then
    .ok { b with shippingCost := some m.value, shippingCostCents := some m.cents }
  else .ok b

/-- `setSubtotal(value)` -/
def OrderBuilder.setSubtotal (b : OrderBuilder) (value : String) :
    Except String OrderBuilder := do
  let m ← parseMonetaryAmount value
  if b.subtotalCents ≠ none ∧ b.subtotalCents ≠ some m.cents then
    .error "Subtotal already set"
  else if b.subtotal = none then
    .ok { b with subtotal := some m.value, subtotalCents := some m.cents }
  else .ok b

/-- `setTax(value)` -/
def OrderBuilder.setTax (b : OrderBuilder) (value : String) :
    Except String OrderBuilder := do
  let m ← parseMonetaryAmount value
  if b.taxCents ≠ none ∧ b.taxCents ≠ some m.cents then
    .error "Tax already set"
  else if b.tax = none then
    .ok { b with tax := some m.value, taxCents := some m.cents }
  else .ok b

/-- `setTotal(value)`; a `$`-prefixed value also records the currency. -/
def OrderBuilder.setTotal (b : OrderBuilder) (value : String) :
    Except String OrderBuilder := do
  let m ← parseMonetaryAmount value
  if b.totalCents ≠ none ∧ b.totalCents ≠ some m.cents then
    .error "Total already set"
  else
    let b := if b.total = none then
        { b with total := some m.value, totalCents := some m.cents }
      else b
    match m.value.toList with
    | '$' :: _ => b.setCurrency "$"
    | _ => .ok b

/-- The finalized order item. -/
structure OrderItem where
  name : String
  price : String
  priceCents : JsNum
  quantity : JsNum
deriving Repr, DecidableEq

/-- The finalized shipping address. -/
structure ShippingAddress where
  name : String
  address : String
  city : String
  state : String
  zip : String
  country : String
deriving Repr, DecidableEq

/-- The finalized shipment (`shippingAddress` is present only when a
shipping address was required). -/
structure Shipment where
  date : Option String := none
  shippingAddress : Option ShippingAddress := none
  items : List OrderItem
deriving Repr, DecidableEq

/-- A finalized payment (tagged union over the JS `type` string). -/
inductive PaymentRec where
  | creditCard (cardType last4 date amount : String) (amountCents : JsNum)
  | giftCard (date amount : String) (amountCents : JsNum)
  | cash (date amount : String) (amountCents : JsNum)
deriving Repr, DecidableEq

/-- The finalized, immutable `Order`. -/
structure Order where
  id : String
  currency : String
  date : String
  payments : List PaymentRec
  placedBy : Option String
  shipments : List Shipment
  shippingCost : Option String
  shippingCostCents : Option JsNum
  subtotal : String
  subtotalCents : JsNum
  tax : String
  taxCents : JsNum
  total : String
  totalCents : JsNum
deriving Repr, DecidableEq

/-- `ensure(obj, key)` inside `build()`: fail when the value is missing.
(The JS message appends `JSON.stringify(obj)`; the embedding keeps the
`key + " not set"` part.) -/
def ensureField {α : Type} (v : Option α) (key : String) : Except String α :=
  match v with
  | none => .error (key ++ " not set")
  | some x => .ok x

/-- `calculateTotal()`: fail when no total was captured; in
gift-card-adjustment mode add the sum of the gift-card payment amounts to
the nominal total; re-render the (possibly adjusted) total from the captured
total's currency. -/
def OrderBuilder.calculateTotal (b : OrderBuilder) : Except String (String × JsNum) := do
  match b.totalCents with
  | none => .error "Total not set"
  | some tc0 =>
    let giftCardTotalCents : JsNum :=
      (b.payments.filter (fun p => p.type = some "gift_card")).foldl
        (fun s p => jsAdd s (p.amountCents.getD none)) (some 0)
    let tc := if b.shouldAdjustTotalBasedOnGiftCards then jsAdd tc0 giftCardTotalCents else tc0
    let m ← parseMonetaryAmount (b.total.getD "undefined")
    .ok (formatMonetaryAmount m.currency tc, tc)

/-- `/^\d{4}-\d{2}-\d{2}$/.test(date)` -/
def isCanonicalDate (s : String) : Bool :=
  match s.toList with
  | [y1, y2, y3, y4, h1, m1, m2, h2, d1, d2] =>
    isDigitChar y1 && isDigitChar y2 && isDigitChar y3 && isDigitChar y4 &&
    h1 = '-' && isDigitChar m1 && isDigitChar m2 && h2 = '-' &&
    isDigitChar d1 && isDigitChar d2
  | _ => false

/-- Finalization of one payment inside `build()` (`payments.map`):
`date = p.date ?? order.date`; a payment with no amount takes the calculated
total when payment-covers-full-amount mode is on; then the tagged record is
assembled by `type`. -/
def buildPayment (builderDate : Option String) (assumeCovers : Bool)
    (total : String) (totalCents : JsNum) (idx : Nat) (p : PartialPayment) :
    Except String PaymentRec := do
  if p.type = none then
    .error ("Payment " ++ String.mk (natDigits idx) ++ " type not set")
  else do
  let date ← match p.date.orElse (fun _ => builderDate) with
    | none => .error ("Payment " ++ String.mk (natDigits idx) ++ " date not set")
    | some d => pure d
  let pAmount := if p.amount = none ∧ assumeCovers then some total else p.amount
  let pAmountCents := if p.amount = none ∧ assumeCovers then some totalCents else p.amountCents
  let amount ← ensureField pAmount "amount"
  let amountCents ← ensureField pAmountCents "amountCents"
  if p.type = some "credit_card" then do
    let cardType ← ensureField p.cardType "cardType"
    let last4 ← ensureField p.last4 "last4"
    .ok (.creditCard cardType last4 date amount amountCents)
  else if p.type = some "gift_card" then
    .ok (.giftCard date amount amountCents)
  else if p.type = some "cash" then
    .ok (.cash date amount amountCents)
  else
    .error ("Unexpected payment type: " ++ (p.type.getD "undefined"))

/-- Finalization of one shipment inside `build()` (`shipments.map`): every
item must be complete; the address fields are required only when a shipping
address is required; a shipment date is kept when present. -/
def buildShipment (addressRequired : Bool) (s : PartialShipment) :
    Except String Shipment := do
  let items ← s.items.mapM (fun i => do
    let name ← ensureField i.name "name"
    let price ← ensureField i.price "price"
    let priceCents ← ensureField i.priceCents "priceCents"
    let quantity ← ensureField i.quantity "quantity"
    pure (OrderItem.mk name price priceCents quantity))
  let addr ←
    if addressRequired then do
      let name ← ensureField s.shippingAddress.name "name"
      let address ← ensureField s.shippingAddress.address "address"
      let city ← ensureField s.shippingAddress.city "city"
      let state ← ensureField s.shippingAddress.state "state"
      let zip ← ensureField s.shippingAddress.zip "zip"
      let country ← ensureField s.shippingAddress.country "country"
      pure (some (ShippingAddress.mk name address city state zip country))
    else pure none
  .ok { date := s.date, shippingAddress := addr, items := items }

/-- `build()` (`part_013` lines 46-163), in the source's evaluation order:
calculate the total; ensure subtotal and tax; in infer-taxes mode reject an
already-captured (truthy) tax and otherwise derive
`tax = total − subtotal − shipping`; validate the date format; reject
ambiguous multi-payment attribution; then assemble the immutable order,
ensuring id and currency and finalizing payments and shipments. -/
def OrderBuilder.build (b : OrderBuilder) : Except String Order := do
  let tp ← b.calculateTotal
  let total := tp.1
  let totalCents := tp.2
  let shippingCost := b.shippingCost
  let shippingCostCents := b.shippingCostCents
  let subtotal ← ensureField b.subtotal "subtotal"
  let subtotalCents ← ensureField b.subtotalCents "subtotalCents"
  let tax0 ← ensureField b.tax "tax"
  let taxCents0 ← ensureField b.taxCents "taxCents"
  let taxPair ←
    if b.inferTaxesOn then
      if jsTruthy taxCents0 then
        .error "inferTaxes is set but order already has tax"
      else
        let tc := jsSub (jsSub totalCents subtotalCents) (shippingCostCents.getD none)
        pure (formatMonetaryAmount b.currency tc, tc)
    else pure (tax0, taxCents0)
  let date ← ensureField b.date "date"
  if ¬ isCanonicalDate date then
    .error ("Invalid date format: " ++ date ++ ". Expected YYYY-MM-DD")
  else do
  if b.assumePaymentCoversFullAmountOn ∧ b.payments.length > 1 ∧
      b.payments.any (fun p => p.amount = none) then
    .error "Assuming payment covers full amount but multiple payments are set, some missing amount"
  else do
  let id ← ensureField b.id "id"
  let currency ← ensureField b.currency "currency"
  let payments ← (b.payments.enum.mapM (fun ip =>
    buildPayment b.date b.assumePaymentCoversFullAmountOn total totalCents ip.1 ip.2))
  let shipments ← b.shipments.mapM (buildShipment b.shippingAddressRequired)
  .ok { id := id, currency := currency, date := date, payments := payments
        placedBy := b.placedBy, shipments := shipments
        shippingCost := shippingCost, shippingCostCents := shippingCostCents
        subtotal := subtotal, subtotalCents := subtotalCents
        tax := taxPair.1, taxCents := taxPair.2
        total := total, totalCents := totalCents }

example : (OrderBuilder.setItemName {} "a" |>.setItemName "b").lastItemD.name = some "b" := by
  decide
example : ({} : OrderBuilder).build = .error "Total not set" := by decide

/-!
## The parser engine (`invoice-parser/parser.ts`)

`newParserState(name, ...rules)` builds a state function that tries its
rules in order: a rule whose matcher fails is skipped; a matched rule's
processor may return `true` (token handled, stop — the state function
returns itself), a parser state (returned to the engine), or
`void`/`false` (keep trying later rules); when every rule has been tried
the state function returns itself.  `createParser(initial)` feeds tokens to
the current state and, when the returned state is truthy and different from
the current one, invokes the `onStateChange` hook and updates the current
state.  States are identified by value here (`σ`), standing for the
function references of the JS implementation.
-/

/-- What a matched rule's processor returned, together with the (mutated)
context. -/
inductive ProcOut (σ τ : Type) where
  | handled (ctx : τ)
  | toState (s : σ) (ctx : τ)
  | pass (ctx : τ)

/-- One rule of a parser state: a matcher plus a processor receiving
`match[0]`, the captures, and the context. -/
structure GRule (σ τ : Type) where
  m : Matcher
  proc : String → Caps → τ → Except String (ProcOut σ τ)

/-- The rule loop of the state function made by `newParserState`:
first-match-wins, with the semantics described above; `self` is the state's
own identity, returned when the token is handled or no rule fires. -/
def runRules {σ τ : Type} (self : σ) :
    List (GRule σ τ) → String → τ → Except String (σ × τ)
  | [], _, ctx => .ok (self, ctx)
  | r :: rest, tok, ctx =>
    match r.m.run tok with
    | none => runRules self rest tok ctx
    | some (full, caps) =>
      match r.proc full caps ctx with
      | .error e => .error e
      | .ok (.handled ctx2) => .ok (self, ctx2)
      | .ok (.toState s ctx2) => .ok (s, ctx2)
      | .ok (.pass ctx2) => runRules self rest tok ctx2

/-- One engine iteration of `createParser`'s token loop, also reporting
whether the `onStateChange` diagnostic hook fired: the returned state is
always truthy, so the hook fires exactly when it differs from the current
state. -/
def engineStep {σ τ : Type} [DecidableEq σ]
    (stepFn : σ → String → τ → Except String (σ × τ))
    (s : σ) (tok : String) (ctx : τ) : Except String (σ × τ × Bool) :=
  match stepFn s tok ctx with
  | .error e => .error e
  | .ok (n, c) => .ok (n, c, decide (n ≠ s))

/-!
## The invoice parser states (`invoice-parser/main.ts`)

Each named state (including the states `newParserState` creates inline
inside handlers, which close over captured text) becomes a constructor of
`StId`; `skipNextToken(next)` becomes `skipNextTo next`.
-/

/-- Identities of the parser states of `main.ts`.  Parameters carry the text
the corresponding JS closures capture. -/
inductive StId where
  | unknown
  | unknownV2
  | onlineOrder
  | onlineOrderItems
  | onlineOrderItemsV2
  | onlineOrderItemsV2ReturnStarted
  | onlineOrderShipping
  | onlineOrderPayment
  | onlineOrderBilling
  | lookForGiftCardAmount
  | lookingForEndingInLastDigits (ccName : String)
  | lookingForEndingIn (ccName : String)
  | groceries
  | groceryPayments
  | groceryItems
  | lookingForGroceryTotal
  | lookingForGrocerySubtotal
  | lookingForGroceryTotalSavingsLabel (subtotal : String)
  | lookingForGroceryTotalSavings (subtotal : String)
  | lookingForGroceryTax
  | lookingForGroceryCash
  | lookingForGroceryCC (ccName : String)
  | lookingForGroceryCCAmount (ccName lastFour : String)
  | lookingForGroceryQty (itemSubtotal : String)
  | skipNextTo (s : StId)
deriving Repr, DecidableEq

/-- A rule of the invoice parser. -/
abbrev IRule := GRule StId OrderBuilder

/-- Capture accessor: group `n`'s text (a group that participated in the
match always has one; the `"undefined"` default mirrors JS string coercion
of `undefined` and is unreachable in the embedded rules). -/
def capOr (caps : Caps) (n : Nat) : String :=
  (getCap caps n).getD "undefined"

/-- Keep only the regex rules of a state.  When a handler is the state
function itself (`process: onlineOrder`), JS calls that state function with
the *match array* instead of a token string; `RegExp.exec` coerces the array
back to the matched text, but strict equality against an `equals` rule can
never hold for an array, so the `equals` rules of the delegated-to state
cannot fire on that path. -/
def regexRulesOnly (rs : List IRule) : List IRule :=
  rs.filter (fun r =>
    match r.m with
    | .eqs _ => false
    | .rx _ _ _ => true)

/-- The `online_order` state: order id, totals, dates, and section markers
(`main.ts` lines 73-232), in source rule order. -/
def onlineOrderRules : List IRule :=
  [ -- /\d{3}-\d{7}-\d{7}/ (RegExp literal: case-sensitive, unanchored)
    ⟨.rx false false orderIdRe, fun full _ b => do
      let b ← b.setID full
      .ok (.handled b)⟩,
    -- `Order Total: (MONEY)`
    ⟨.rx true false (reCat [strRe "Order Total: ", .grp 1 moneyRe]), fun _ caps b => do
      let b ← b.setTotal (capOr caps 1)
      .ok (.handled b)⟩,
    -- `^Placed By: (.+)$`
    ⟨.rx true true (reCat [strRe "Placed By: ", .grp 1 (plusRe .anyc), endRe]),
      fun _ caps b => do
        let b ← b.setPlacedBy (capOr caps 1)
        .ok (.handled b)⟩,
    -- `Order Placed: (DATE)`
    ⟨.rx true false (reCat [strRe "Order Placed: ", .grp 1 (dateMDYRe 2)]),
      fun _ caps b => do
        let b ← b.setDate (capOr caps 4) (capOr caps 2) (capOr caps 3)
        .ok (.handled b)⟩,
    -- `(?:Shipping Speed: )?Shipped on (DATE)`
    ⟨.rx true false (reCat [.opt (strRe "Shipping Speed: "), strRe "Shipped on ",
        .grp 1 (dateMDYRe 2)]),
      fun _ caps b =>
        .ok (.handled (b.finalizeShipment.setShippingDate
          (capOr caps 4) (capOr caps 2) (capOr caps 3)))⟩,
    -- `^(Not Yet Shipped|Shipping now)$`
    ⟨.rx true true (reCat [.grp 1 (.alt (strRe "Not Yet Shipped") (strRe "Shipping now")),
        endRe]),
      fun _ _ b => .ok (.handled b.finalizeShipment)⟩,
    ⟨.eqs "Items Ordered", fun _ _ b => .ok (.toState .onlineOrderItems b)⟩,
    -- `^Return started$`
    ⟨.rx true true (reCat [strRe "Return started", endRe]),
      fun _ _ b => .ok (.toState .onlineOrderItemsV2ReturnStarted b)⟩,
    -- `^(Delivered|Arriving tomorrow)$`
    ⟨.rx true true (reCat [.grp 1 (.alt (strRe "Delivered") (strRe "Arriving tomorrow")),
        endRe]),
      fun _ _ b => .ok (.toState .onlineOrderItemsV2 b)⟩,
    -- `^Item\(s\) Subtotal: (MONEY)`
    ⟨.rx true true (reCat [strRe "Item(s) Subtotal: ", .grp 1 moneyRe]),
      fun _ caps b => do
        let b ← b.setSubtotal (capOr caps 1)
        .ok (.handled b)⟩,
    ⟨.eqs "Billing address", fun _ _ b => .ok (.toState .onlineOrderBilling b)⟩,
    -- `^Item\(s\) Subtotal: (MONEY)$`
    ⟨.rx true true (reCat [strRe "Item(s) Subtotal: ", .grp 1 moneyRe, endRe]),
      fun _ caps b => do
        let b ← b.setSubtotal (capOr caps 1)
        .ok (.handled b)⟩,
    -- `^Shipping & Handling: (MONEY)`
    ⟨.rx true true (reCat [strRe "Shipping & Handling: ", .grp 1 moneyRe]),
      fun _ caps b => do
        let b ← b.setShippingCost (capOr caps 1)
        .ok (.handled b)⟩,
    ⟨.eqs "Payment information", fun _ _ b => .ok (.toState .onlineOrderPayment b)⟩,
    -- `^Estimated tax to be collected: (MONEY)`
    ⟨.rx true true (reCat [strRe "Estimated tax to be collected: ", .grp 1 moneyRe]),
      fun _ caps b => do
        let b ← b.setTax (capOr caps 1)
        .ok (.handled b)⟩,
    -- `^Gift Card Amount: -(MONEY)`
    ⟨.rx true true (reCat [strRe "Gift Card Amount: -", .grp 1 moneyRe]),
      fun _ caps b => do
        let b ← b.addGiftCardPayment.setPaymentAmount (capOr caps 1)
        .ok (.handled b.adjustTotalBasedOnGiftCard)⟩,
    -- `^Grand Total: (MONEY)`
    ⟨.rx true true (reCat [strRe "Grand Total: ", .grp 1 moneyRe]),
      fun _ caps b => do
        let b ← b.setTotal (capOr caps 1)
        .ok (.handled b)⟩,
    ⟨.eqs "Credit Card transactions",
      fun _ _ b => .ok (.toState .onlineOrderPayment b.resetPaymentInformation)⟩,
    -- `E-mail gift card to: (.+)`
    ⟨.rx true false (reCat [strRe "E-mail gift card to: ", .grp 1 (plusRe .anyc)]),
      fun _ caps b =>
        .ok (.toState .lookForGiftCardAmount
          (b.nothingWillBeShipped.setItemName ("Gift card: " ++ capOr caps 1)))⟩,
    -- `^Payment Method: (CC)$`
    ⟨.rx true true (reCat [strRe "Payment Method: ", .grp 1 (ccNameRe 2), endRe]),
      fun _ caps b => .ok (.toState (.lookingForEndingInLastDigits (capOr caps 1)) b)⟩ ]

/-- The `unknown` (initial) state (`main.ts` lines 30-49): recognize the
accessibility marker of the v2 layout, the Whole Foods marker, or the page
title `Amazon.com - Order <id>` — whose handler feeds the matched text
straight through the `online_order` state and moves there. -/
def unknownRules : List IRule :=
  [ ⟨.eqs "Brief content visible, double tap to read full content.",
      fun _ _ b => .ok (.toState .unknownV2 b)⟩,
    ⟨.eqs "Purchased at Whole Foods Market store",
      fun _ _ b => .ok (.toState .groceries b.nothingWillBeShipped)⟩,
    -- `Amazon.com - Order (ID)` (the `.` of the source pattern is a regex
    -- wildcard); the handler calls `onlineOrder(token, …)` on `match[0]`
    -- and returns its result, i.e. the state the engine moves to
    ⟨.rx true false (reCat [strRe "Amazon", .anyc, strRe "com - Order ", .grp 1 orderIdRe]),
      fun full _ b => do
        let sb ← runRules .onlineOrder onlineOrderRules full b
        .ok (.toState sb.1 sb.2)⟩ ]

/-- The `unknown_v2` state (`main.ts` lines 51-71). -/
def unknownV2Rules : List IRule :=
  [ ⟨.rx true false (dateMDYRe 1), fun _ caps b => do
      let b ← b.setDate (capOr caps 3) (capOr caps 1) (capOr caps 2)
      .ok (.handled b)⟩,
    -- `^ID$` (no capture group; the handler takes `match[0]`)
    ⟨.rx true true (reCat [orderIdRe, endRe]), fun full _ b => do
      let b ← b.setID full
      .ok (.handled b)⟩,
    ⟨.eqs "Ship to", fun _ _ b => .ok (.toState .onlineOrderShipping b)⟩ ]

/-- The `online_order_items` state (`main.ts` lines 234-264). -/
def onlineOrderItemsRules : List IRule :=
  [ -- `^(\d+) of: (.+)$`
    ⟨.rx true true (reCat [.grp 1 (plusRe digitRe), strRe " of: ",
        .grp 2 (plusRe .anyc), endRe]),
      fun _ caps b =>
        .ok (.handled ((b.setItemName (capOr caps 2)).setItemQuantity (capOr caps 1)))⟩,
    -- `^MONEY$` (no capture group; the handler takes `match[0]`)
    ⟨.rx true true (reCat [moneyRe, endRe]), fun full _ b => do
      let b ← b.setItemPrice full none
      .ok (.handled b.finalizeItem)⟩,
    ⟨.eqs "Shipping Address: Shipping Speed: Payment information",
      fun _ _ b => .ok (.toState .onlineOrder b.nothingWillBeShipped)⟩,
    -- `^Shipping Address: (.+)`
    ⟨.rx true true (reCat [strRe "Shipping Address: ", .grp 1 (plusRe .anyc)]),
      fun _ caps b => do
        let b ← b.setShippingAddressName (capOr caps 1)
        .ok (.toState .onlineOrderShipping b)⟩ ]

/-- The `online_order_items_v2` state (`main.ts` lines 266-317). -/
def onlineOrderItemsV2Rules : List IRule :=
  [ ⟨.eqs "Your package was left near the front door or porch.",
      fun _ _ b => .ok (.handled b)⟩,
    -- `^DATE_MMMM_DD$`
    ⟨.rx true true (reCat [dateMDRe 1, endRe]), fun _ _ b => .ok (.handled b)⟩,
    -- /^\d+$/ (RegExp literal)
    ⟨.rx false true (reCat [plusRe digitRe, endRe]), fun full _ b =>
      .ok (.handled (b.setItemQuantity full))⟩,
    -- `^Sold by: (.+)$`
    ⟨.rx true true (reCat [strRe "Sold by: ", .grp 1 (plusRe .anyc), endRe]),
      fun _ _ b => .ok (.handled b)⟩,
    -- `^Supplied by: (.+)$`
    ⟨.rx true true (reCat [strRe "Supplied by: ", .grp 1 (plusRe .anyc), endRe]),
      fun _ _ b => .ok (.handled b)⟩,
    -- /^Auto-delivered:/ (RegExp literal)
    ⟨.rx false true (strRe "Auto-delivered:"), fun _ _ b => .ok (.handled b)⟩,
    -- `^Return (or replace )?items:`
    ⟨.rx true true (reCat [strRe "Return ", .opt (.grp 1 (strRe "or replace ")),
        strRe "items:"]),
      fun _ _ b => .ok (.handled b)⟩,
    ⟨.eqs "Back to top", fun _ _ b => .ok (.toState .onlineOrder b)⟩,
    -- `^(MONEY)$`
    ⟨.rx true true (reCat [.grp 1 moneyRe, endRe]), fun full _ b => do
      let b ← (b.assumeItemQuantity 1).setItemPrice full none
      .ok (.toState (.skipNextTo .onlineOrderItemsV2) b.finalizeItem)⟩,
    -- /.+/ (RegExp literal)
    ⟨.rx false false (plusRe .anyc), fun full _ b =>
      .ok (.handled (b.setItemName full))⟩ ]

/-- The `online_order_items_v2_return_started` state (`main.ts` lines
319-352). -/
def onlineOrderItemsV2ReturnStartedRules : List IRule :=
  [ ⟨.eqs "Your refund will be processed when we receive your item.",
      fun _ _ b => .ok (.handled b)⟩,
    -- `^(Sold by|Supplied by):`
    ⟨.rx true true (reCat [.grp 1 (.alt (strRe "Sold by") (strRe "Supplied by")),
        strRe ":"]),
      fun _ _ b => .ok (.handled b)⟩,
    ⟨.eqs "Delivered", fun _ _ b => .ok (.toState .onlineOrderItemsV2 b)⟩,
    ⟨.eqs "Payment method", fun _ _ b => .ok (.toState .onlineOrderPayment b)⟩,
    -- `^(MONEY)$`
    ⟨.rx true true (reCat [.grp 1 moneyRe, endRe]), fun full _ b => do
      let b ← (b.assumeItemQuantity 1).setItemPrice full none
      .ok (.toState (.skipNextTo .onlineOrderItemsV2ReturnStarted) b.finalizeItem)⟩,
    -- `.+` (string pattern)
    ⟨.rx true false (plusRe .anyc), fun full _ b =>
      .ok (.handled (b.setItemName full))⟩ ]

/-- The `online_order_shipping` state (`main.ts` lines 354-404). -/
def onlineOrderShippingRules : List IRule :=
  [ -- `Shipping Speed: Shipped on (DATE)`
    ⟨.rx true false (reCat [strRe "Shipping Speed: Shipped on ", .grp 1 (dateMDYRe 2)]),
      fun _ caps b =>
        .ok (.toState .onlineOrder (b.finalizeShipment.setShippingDate
          (capOr caps 4) (capOr caps 2) (capOr caps 3)))⟩,
    -- `^Shipping Speed: `
    ⟨.rx true true (strRe "Shipping Speed: "), fun _ _ b => .ok (.toState .onlineOrder b)⟩,
    ⟨.eqs "Payment information", fun _ _ b => .ok (.toState .onlineOrder b)⟩,
    ⟨.eqs "Payment method", fun _ _ b => .ok (.toState .onlineOrderPayment b)⟩,
    ⟨.eqs "(Full address hidden for privacy.)",
      fun _ _ b => .ok (.toState .onlineOrder b.fullShippingAddressNotAvailable)⟩,
    -- `^(?<city>.+), (?<state>[A-Z]+) (?<zip>\d{5}(?:-\d{4})?)$`
    ⟨.rx true true (reCat [.grp 1 (plusRe .anyc), strRe ", ", .grp 2 (plusRe upperRe),
        .ch ' ', .grp 3 (reCat [repRe 5 digitRe,
          .opt (reCat [.ch '-', repRe 4 digitRe])]), endRe]),
      fun _ caps b => do
        let b ← b.setShippingCityStateZip (capOr caps 1) (capOr caps 2) (capOr caps 3)
        .ok (.handled b)⟩,
    -- `.+` (string pattern)
    ⟨.rx true false (plusRe .anyc), fun full _ b => do
      let b ← b.setNextShippingAddressField full
      .ok (.handled b)⟩ ]

/-- The `online_order_payment` state (`main.ts` lines 406-482). -/
def onlineOrderPaymentRules : List IRule :=
  [ -- `^(?<ccName>CC) ending in (?<lastFour>\d{4}): DATE: (?<paymentAmount>MONEY)$`
    ⟨.rx true true (reCat [.grp 1 (ccNameRe 2), strRe " ending in ",
        .grp 3 (repRe 4 digitRe), strRe ": ", dateMDYRe 4, strRe ": ",
        .grp 7 moneyRe, endRe]),
      fun _ caps b => do
        let b ← (b.addCreditCardPayment (capOr caps 1) (capOr caps 3)).setPaymentAmount
          (capOr caps 7)
        let b ← b.setPaymentDate (capOr caps 6) (capOr caps 4) (capOr caps 5)
        .ok (.handled b)⟩,
    -- `^(CC)$` (the handler takes `match[0]`)
    ⟨.rx true true (reCat [.grp 1 (ccNameRe 2), endRe]),
      fun full _ b => .ok (.toState (.lookingForEndingIn full) b)⟩,
    -- `^Payment Method: (CC)$`
    ⟨.rx true true (reCat [strRe "Payment Method: ", .grp 1 (ccNameRe 2), endRe]),
      fun _ caps b => .ok (.toState (.lookingForEndingIn (capOr caps 1)) b)⟩,
    -- `^Item\(s\) Subtotal: (MONEY)$`
    ⟨.rx true true (reCat [strRe "Item(s) Subtotal: ", .grp 1 moneyRe, endRe]),
      fun _ caps b => do
        let b ← b.setSubtotal (capOr caps 1)
        .ok (.toState .onlineOrder b)⟩,
    ⟨.eqs "Amazon gift card balance", fun _ _ b => .ok (.handled b)⟩,
    ⟨.eqs "Billing address", fun _ _ b => .ok (.toState .onlineOrderBilling b)⟩ ]

/-- The `online_order_billing` state (`main.ts` lines 484-496); its subtotal
rule feeds `match[0]` through the `online_order` state and moves to the
resulting state. -/
def onlineOrderBillingRules : List IRule :=
  [ ⟨.rx true true (reCat [strRe "Item(s) Subtotal: ", .grp 1 moneyRe]),
      fun full _ b => do
        let sb ← runRules .onlineOrder onlineOrderRules full b
        .ok (.toState sb.1 sb.2)⟩,
    ⟨.rx true false (plusRe .anyc), fun _ _ b => .ok (.handled b)⟩ ]

/-- The `groceries` state (`main.ts` lines 498-576); handlers that return
the `groceries` state itself are `toState .groceries` (the engine then sees
no state change). -/
def groceriesRules : List IRule :=
  [ ⟨.eqs "Items in your order", fun _ _ b => .ok (.toState .groceryItems b)⟩,
    -- `^Purchased [a-z]+, DATE$`
    ⟨.rx true true (reCat [strRe "Purchased ", plusRe lowerRe, strRe ", ",
        dateMDYRe 1, endRe]),
      fun _ caps b => do
        let b ← b.setDate (capOr caps 3) (capOr caps 1) (capOr caps 2)
        .ok (.toState .groceries b)⟩,
    -- `^Order #: (ID)$`
    ⟨.rx true true (reCat [strRe "Order #: ", .grp 1 orderIdRe, endRe]),
      fun _ caps b => do
        let b ← b.setID (capOr caps 1)
        .ok (.toState .groceries b)⟩,
    ⟨.eqs "Grand Total", fun _ _ b => .ok (.toState .lookingForGroceryTotal b)⟩,
    ⟨.eqs "Payment Methods", fun _ _ b => .ok (.toState .groceryPayments b)⟩,
    ⟨.eqs "Item Subtotal", fun _ _ b => .ok (.toState .lookingForGrocerySubtotal b)⟩,
    ⟨.eqs "Tax and Fees", fun _ _ b => .ok (.toState .lookingForGroceryTax b)⟩ ]

/-- The `grocery_payments` state (`main.ts` lines 578-613). -/
def groceryPaymentsRules : List IRule :=
  [ ⟨.eqs "Cash", fun _ _ b => .ok (.toState .lookingForGroceryCash b)⟩,
    -- `CC` (unanchored string pattern; the handler takes `match[0]`)
    ⟨.rx true false (ccNameRe 1),
      fun full _ b => .ok (.toState (.lookingForGroceryCC full) b)⟩,
    ⟨.eqs "How was your trip?", fun _ _ b => .ok (.toState .groceries b)⟩ ]

/-- The `grocery_items` state (`main.ts` lines 615-656). -/
def groceryItemsRules : List IRule :=
  [ -- `^(MONEY)$` (the handler takes `match[0]` and closes over it)
    ⟨.rx true true (reCat [.grp 1 moneyRe, endRe]),
      fun full _ b => .ok (.toState (.lookingForGroceryQty full) b)⟩,
    ⟨.eqs "View all items", fun _ _ b => .ok (.toState .groceries b)⟩,
    -- `^(MONEY) each$`
    ⟨.rx true true (reCat [.grp 1 moneyRe, strRe " each", endRe]),
      fun _ _ b => .ok (.handled b)⟩,
    -- `^(MONEY) promotions applied$`
    ⟨.rx true true (reCat [.grp 1 moneyRe, strRe " promotions applied", endRe]),
      fun _ _ b => .ok (.handled b)⟩,
    ⟨.eqs "@", fun _ _ b => .ok (.toState .groceryItems b)⟩,
    -- `^(.+)$`
    ⟨.rx true true (reCat [.grp 1 (plusRe .anyc), endRe]),
      fun _ caps b => .ok (.toState .groceryItems (b.setItemName (capOr caps 1)))⟩ ]

/-- The inline `look_for_gift_card_amount` state (`main.ts` lines 202-208). -/
def lookForGiftCardAmountRules : List IRule :=
  [ ⟨.rx true true (reCat [.grp 1 moneyRe, endRe]), fun full _ b => do
      let b ← (b.assumeItemQuantity 1).setItemPrice full none
      .ok (.toState .onlineOrder b.finalizeItem)⟩ ]

/-- The inline `looking_for_ending_in` state created by the `Payment
Method:` rule of `online_order` (`main.ts` lines 214-229): a `Last digits:`
rule, then a catch-all whose handler *is* the `onlineOrder` state function,
so it receives the match array (only the regex rules of `online_order` can
fire there). -/
def lookingForEndingInLastDigitsRules (ccName : String) : List IRule :=
  [ -- `Last digits: (\d{4})\b`
    ⟨.rx true false (reCat [strRe "Last digits: ", .grp 1 (repRe 4 digitRe), wordEdgeRe]),
      fun _ caps b =>
        .ok (.toState .onlineOrder
          ((b.addCreditCardPayment ccName (capOr caps 1)).assumePaymentCoversFullAmount))⟩,
    ⟨.rx true false (plusRe .anyc), fun full _ b => do
      let sb ← runRules .onlineOrder (regexRulesOnly onlineOrderRules) full b
      .ok (.toState sb.1 sb.2)⟩ ]

/-- The inline `looking_for_ending_in` states created inside
`online_order_payment` (`main.ts` lines 426-441 and 447-462, identical
rule content given the captured card name). -/
def lookingForEndingInRules (ccName : String) : List IRule :=
  [ -- `^ending in (\d{4})$`
    ⟨.rx true true (reCat [strRe "ending in ", .grp 1 (repRe 4 digitRe), endRe]),
      fun _ caps b =>
        .ok (.toState .onlineOrder
          ((b.addCreditCardPayment ccName (capOr caps 1)).assumePaymentCoversFullAmount))⟩,
    ⟨.rx true false (plusRe .anyc), fun full _ b => do
      let sb ← runRules .onlineOrder (regexRulesOnly onlineOrderRules) full b
      .ok (.toState sb.1 sb.2)⟩ ]

/-- The inline `looking_for_grocery_total` state (`main.ts` lines 524-530). -/
def lookingForGroceryTotalRules : List IRule :=
  [ ⟨.rx true true (reCat [.grp 1 moneyRe, endRe]), fun full _ b => do
      let b ← b.setTotal full
      .ok (.toState .groceries b)⟩ ]

/-- The inline `looking_for_grocery_subtotal` state (`main.ts` lines
539-541). -/
def lookingForGrocerySubtotalRules : List IRule :=
  [ ⟨.rx true true (reCat [.grp 1 moneyRe, endRe]),
      fun full _ b => .ok (.toState (.lookingForGroceryTotalSavingsLabel full) b)⟩ ]

/-- The inline `looking_for_grocery_total_savings_label` state (`main.ts`
lines 542-544). -/
def lookingForGroceryTotalSavingsLabelRules (subtotal : String) : List IRule :=
  [ ⟨.eqs "Total Savings",
      fun _ _ b => .ok (.toState (.lookingForGroceryTotalSavings subtotal) b)⟩ ]

/-- The inline `looking_for_grocery_total_savings` state (`main.ts` lines
545-561): fold the savings back into the captured subtotal. -/
def lookingForGroceryTotalSavingsRules (subtotal : String) : List IRule :=
  [ ⟨.rx true true (reCat [.grp 1 moneyRe, endRe]), fun full _ b => do
      let ms ← parseMonetaryAmount subtotal
      let mv ← parseMonetaryAmount full
      let b ← b.setSubtotal (formatMonetaryAmount ms.currency (jsAdd ms.cents mv.cents))
      .ok (.toState .groceries b)⟩ ]

/-- The inline `looking_for_grocery_tax` state (`main.ts` lines 567-574). -/
def lookingForGroceryTaxRules : List IRule :=
  [ ⟨.rx true true (reCat [.grp 1 moneyRe, endRe]), fun full _ b => do
      let b ← b.setTax full
      .ok (.toState .groceries b)⟩ ]

/-- The inline `looking_for_grocery_cash` state (`main.ts` lines 582-589). -/
def lookingForGroceryCashRules : List IRule :=
  [ ⟨.rx true true (reCat [.grp 1 moneyRe, endRe]), fun full _ b => do
      let b ← b.addCashPayment.setPaymentAmount full
      .ok (.toState .groceryPayments b)⟩ ]

/-- The inline `looking_for_grocery_cc` state (`main.ts` lines 594-606). -/
def lookingForGroceryCCRules (ccName : String) : List IRule :=
  [ -- `^\*(\d{4})$`
    ⟨.rx true true (reCat [.ch '*', .grp 1 (repRe 4 digitRe), endRe]),
      fun _ caps b =>
        .ok (.toState (.lookingForGroceryCCAmount ccName (capOr caps 1)) b)⟩ ]

/-- The inline `looking_for_grocery_cc_amount` state (`main.ts` lines
597-605). -/
def lookingForGroceryCCAmountRules (ccName lastFour : String) : List IRule :=
  [ ⟨.rx true true (reCat [.grp 1 moneyRe, endRe]), fun full _ b => do
      let b ← (b.addCreditCardPayment ccName lastFour).setPaymentAmount full
      .ok (.toState .groceryPayments b)⟩ ]

/-- The inline `looking_for_grocery_qty` state (`main.ts` lines 620-626). -/
def lookingForGroceryQtyRules (itemSubtotal : String) : List IRule :=
  [ -- `^Qty: (\d+)$`
    ⟨.rx true true (reCat [strRe "Qty: ", .grp 1 (plusRe digitRe), endRe]),
      fun _ caps b => do
        let b ← b.setItemPrice itemSubtotal (some (capOr caps 1))
        .ok (.toState .groceryItems b.finalizeItem)⟩ ]

/-- The rule list of each state. -/
def rulesOf : StId → List IRule
  | .unknown => unknownRules
  | .unknownV2 => unknownV2Rules
  | .onlineOrder => onlineOrderRules
  | .onlineOrderItems => onlineOrderItemsRules
  | .onlineOrderItemsV2 => onlineOrderItemsV2Rules
  | .onlineOrderItemsV2ReturnStarted => onlineOrderItemsV2ReturnStartedRules
  | .onlineOrderShipping => onlineOrderShippingRules
  | .onlineOrderPayment => onlineOrderPaymentRules
  | .onlineOrderBilling => onlineOrderBillingRules
  | .lookForGiftCardAmount => lookForGiftCardAmountRules
  | .lookingForEndingInLastDigits ccName => lookingForEndingInLastDigitsRules ccName
  | .lookingForEndingIn ccName => lookingForEndingInRules ccName
  | .groceries => groceriesRules
  | .groceryPayments => groceryPaymentsRules
  | .groceryItems => groceryItemsRules
  | .lookingForGroceryTotal => lookingForGroceryTotalRules
  | .lookingForGrocerySubtotal => lookingForGrocerySubtotalRules
  | .lookingForGroceryTotalSavingsLabel s => lookingForGroceryTotalSavingsLabelRules s
  | .lookingForGroceryTotalSavings s => lookingForGroceryTotalSavingsRules s
  | .lookingForGroceryTax => lookingForGroceryTaxRules
  | .lookingForGroceryCash => lookingForGroceryCashRules
  | .lookingForGroceryCC c => lookingForGroceryCCRules c
  | .lookingForGroceryCCAmount c l => lookingForGroceryCCAmountRules c l
  | .lookingForGroceryQty s => lookingForGroceryQtyRules s
  | .skipNextTo _ => []

/-- One step of the invoice parser: a `skipNextToken` wrapper consumes the
token and moves to its wrapped state; every other state runs its rule list. -/
def stepOf (s : StId) (tok : String) (b : OrderBuilder) :
    Except String (StId × OrderBuilder) :=
  match s with
  | .skipNextTo nxt => .ok (nxt, b)
  | s => runRules s (rulesOf s) tok b

/-- `createParser`'s token loop from an arbitrary state. -/
def runParserFrom (s : StId) (toks : List String) (b : OrderBuilder) :
    Except String (StId × OrderBuilder) :=
  match toks with
  | [] => .ok (s, b)
  | tok :: rest => do
    let sb ← stepOf s tok b
    runParserFrom sb.1 rest sb.2

/-- `parseInvoiceTokens = createParser(unknown)`: run the machine from the
`unknown` initial state. -/
def parseInvoiceTokens (toks : List String) (b : OrderBuilder) :
    Except String (StId × OrderBuilder) :=
  runParserFrom .unknown toks b

/-- Feed a token list from the initial state into a fresh builder and build
the order (the token-level core of `parseInvoiceHTML`, `main.ts` lines
18-28, with tokenization already done). -/
def parseAndBuild (toks : List String) : Except String Order := do
  let sb ← parseInvoiceTokens toks {}
  sb.2.build

/-!
## The scrape orchestrator

Two generations are relevant: the current `src/scraper.ts` (cache staleness
policy for year order-list pages) and the older generation (`part_002`) that
declares the `onBeforeYearScrape` / `onBeforeOrderScrape` control hooks.
The datastore is embedded as a lookup function `String → Option String`
(`checkCache`), and the invoice links contained in a cached list page as a
function of its content (`findInvoiceURLs` reads them out of the parsed
DOM, which is external to this spec).
-/

/-- `cacheKey(url)` (`scraper.ts` lines 236-238):
`["v1", "user", user, "url", url].join(":")`. -/
def cacheKey (user url : String) : String :=
  "v1:user:" ++ user ++ ":url:" ++ url

/-- `allInvoiceURLsCached` (`scraper.ts` lines 390-403): a short-circuiting
fold — every invoice URL must have cached content. -/
def allInvoiceURLsCached (cache : String → Option String) (user : String)
    (urls : List String) : Bool :=
  urls.foldl (fun result u => if result then (cache (cacheKey user u)).isSome else false)
    true

/-- The order-list URL of a year (`scrapeOrdersForYear`, `scraper.ts` lines
409-412). -/
def yearListURL (root : String) (year : Int) : String :=
  root ++ "/your-orders/orders?timeFilter=year-" ++ intDecString year

/-- The `checkCache` closure of `scrapeOrdersForYear` (`scraper.ts` lines
415-452): no cached value is a miss; a past year's cached value is used
unconditionally; for the current year the cached value is used only when
every invoice URL it contains is itself cached. -/
def yearListCheckCache (cache : String → Option String) (user : String)
    (year nowYear : Int) (invoiceURLsOf : String → List String)
    (key : String) : Option String :=
  match cache key with
  | none => none
  | some value =>
    if year < nowYear then some value
    else if allInvoiceURLsCached cache user (invoiceURLsOf value) then some value
    else none

/-- How `parsePageContent` (`scraper.ts` lines 240-316) acquires a page. -/
inductive PageSource where
  | fromCache (value : String)
  | liveFetch
deriving Repr, DecidableEq

/-- The acquisition decision of `parsePageContent` for a year's order-list
page: parse the `checkCache` result when there is one, otherwise go to the
browser.  (A parse failure of cached content falls back to a live fetch in
`parsePageContent`'s loop; that recovery path is below this policy and the
cached list pages considered here parse.) -/
def listPageSource (cache : String → Option String) (user root : String)
    (year nowYear : Int) (invoiceURLsOf : String → List String) : PageSource :=
  match yearListCheckCache cache user year nowYear invoiceURLsOf
      (cacheKey user (yearListURL root year)) with
  | some v => .fromCache v
  | none => .liveFetch

/-!
### The older scraper generation (`part_002`) and its control hooks
-/

/-- Events of one `scrapeOrder(invoiceURL)` run and of the per-page order
loop of `scrapeOrdersForYear` (`part_002` lines 372-442 and 504-547).
`consultedOrderHook` would be emitted by a call to the
`onBeforeOrderScrape` option; it is part of the event type precisely so its
absence from every trace can be stated. -/
inductive ScrapeEvent where
  | checkedCache (key : String)
  | consultedOrderHook (id : String)
  | orderScraped (url : String)
deriving Repr, DecidableEq

/-- The event trace of `scrapeOrder(invoiceURL)` (`part_002` lines
372-442): consult the cache (`parsePageContent` with the order `checkCache`
closure), then report the scraped order via `onOrderScraped`.  The method
contains no call to `options.onBeforeOrderScrape`. -/
def scrapeOrderEvents (user url : String) : List ScrapeEvent :=
  [.checkedCache (cacheKey user url), .orderScraped url]

/-- The order loop of one order-list page in `scrapeOrdersForYear`
(`part_002` lines 537-544): `invoiceURLs.reduce`, calling `scrapeOrder` for
each invoice URL in page order, with no intervening hook. -/
def yearOrderLoopEvents (user : String) (invoiceURLs : List String) : List ScrapeEvent :=
  (invoiceURLs.map (scrapeOrderEvents user)).flatten

/-- Is an event a consultation of the per-order hook? -/
def isOrderHookEvent : ScrapeEvent → Bool
  | .consultedOrderHook _ => true
  | _ => false

/-- The default `onBeforeYearScrape` of `DEFAULTS` (`part_002` lines
70-88): a no-op returning no action.  Actions travel as the JS strings of
`YearScrapeAction`. -/
def defaultOnBeforeYearScrape : Int → Option String := fun _ => none

/-- The year loop of `Scraper.scrape()` (`part_002` lines 203-244):
`action = onBeforeYearScrape(year) ?? "SCRAPE"`, then a switch over the
action with cases `STOP_SCRAPING`, `SKIP_YEAR`, `SCRAPE_YEAR`,
`SCRAPE_YEAR_NO_CACHE` and a throwing default.  The result collects
`(year, cacheAllowed)` for each year actually scraped (standing for the
`scrapeOrdersForYear(year, cacheAllowed)` calls); a rejected promise stops
the remaining `.then` chain, which `Except.error` models. -/
def scrapeYearsLoop (hook : Int → Option String) :
    Bool → List (Int × Bool) → List Int → Except String (List (Int × Bool))
  | _, acc, [] => .ok acc
  | continueScraping, acc, y :: rest =>
    if ¬ continueScraping then scrapeYearsLoop hook continueScraping acc rest
    else
      match (hook y).getD "SCRAPE" with
      | "STOP_SCRAPING" => scrapeYearsLoop hook false acc rest
      | "SKIP_YEAR" => scrapeYearsLoop hook true acc rest
      | "SCRAPE_YEAR" => scrapeYearsLoop hook true (acc ++ [(y, true)]) rest
      | "SCRAPE_YEAR_NO_CACHE" => scrapeYearsLoop hook true (acc ++ [(y, false)]) rest
      | a => .error ("Unknown action \"" ++ a ++ "\" for year " ++ intDecString y)

/-- `Scraper.scrape()` over a year list. -/
def scrapeAllYears (hook : Int → Option String) (years : List Int) :
    Except String (List (Int × Bool)) :=
  scrapeYearsLoop hook true [] years

/-!
## Concrete inputs for the claims
-/

/-- The token sequence of the spec's end-to-end example (C1), verbatim. -/
def c1Tokens : List String :=
  [ "Amazon.com order number: 002-7394758-9918293",
    "Order Placed: November 5, 1998",
    "Items Ordered",
    "1 of: Brave New World, Aldous Huxley",
    "$8.00",
    "Item(s) Subtotal: $77.15",
    "Shipping & Handling: $11.55",
    "Estimated tax to be collected: $7.63",
    "Order Total: $96.33" ]

/-- The end-to-end token sequence amended to a form the current parser
actually supports: the first token is the page-title form
`Amazon.com - Order <id>` recognized by the `unknown` state, and the
`Shipping Address: Shipping Speed: Payment information` token returns the
machine from the items state to the `online_order` state (which is the only
state recognizing the subtotal/shipping/tax/total lines). -/
def c1TokensAmended : List String :=
  [ "Amazon.com - Order 002-7394758-9918293",
    "Order Placed: November 5, 1998",
    "Items Ordered",
    "1 of: Brave New World, Aldous Huxley",
    "$8.00",
    "Shipping Address: Shipping Speed: Payment information",
    "Item(s) Subtotal: $77.15",
    "Shipping & Handling: $11.55",
    "Estimated tax to be collected: $7.63",
    "Order Total: $96.33" ]

/-- The one shipment the amended C1 run produces. -/
def c1Shipment : Shipment :=
  { date := none, shippingAddress := none,
    items := [⟨"Brave New World, Aldous Huxley", "$8.00", some 800, some 1⟩] }

/-- The order the spec's end-to-end example describes. -/
def c1Expected : Order :=
  { id := "002-7394758-9918293", currency := "$", date := "1998-11-05",
    payments := [], placedBy := none,
    shipments := [c1Shipment],
    shippingCost := some "$11.55", shippingCostCents := some (some 1155),
    subtotal := "$77.15", subtotalCents := some 7715,
    tax := "$7.63", taxCents := some 763,
    total := "$96.33", totalCents := some 9633 }

/-- A minimal online-order token sequence carrying the two tokens of claim
C2 (`Order Total: $16.98`, `Gift Card Amount: -$18.46`) together with the
fields `build()` requires. -/
def c2Tokens : List String :=
  [ "111-2233445-6677889",
    "Order Placed: January 2, 2024",
    "Item(s) Subtotal: $15.00",
    "Estimated tax to be collected: $1.98",
    "Order Total: $16.98",
    "Gift Card Amount: -$18.46" ]

/-- The C2 run: feed the tokens through the `online_order` state and build. -/
def c2Result : Except String Order := do
  let sb ← runParserFrom .onlineOrder c2Tokens {}
  sb.2.build

/-- A builder in infer-taxes mode with every `build()` requirement except a
captured tax (claim C4's scenario: the invoice carries no tax line). -/
def c4Base : Except String OrderBuilder := do
  let b := ({} : OrderBuilder).inferTaxes
  let b ← b.setID "111-2233445-6677889"
  let b ← b.setDate "2024" "January" "2"
  let b ← b.setSubtotal "$10.00"
  let b ← b.setShippingCost "$1.00"
  b.setTotal "$12.00"

/-!
## Support lemmas

Structural facts about the digit rendering/parsing helpers, used to settle
the monetary round-trip and sign claims for all inputs at once.
-/

lemma digitsVal_append_singleton (ds : List Char) (c : Char) :
    digitsVal (ds ++ [c]) = digitsVal ds * 10 + (c.toNat - 48) := by
  simp [digitsVal, List.foldl_append]

lemma isDigitChar_ofNat (d : Nat) (h : d < 10) :
    isDigitChar (Char.ofNat (48 + d)) = true := by
  interval_cases d <;> decide

lemma toNat_ofNat_digit (d : Nat) (h : d < 10) :
    (Char.ofNat (48 + d)).toNat = 48 + d := by
  interval_cases d <;> decide

lemma natDigitsAux_spec (fuel : Nat) :
    ∀ n, n < fuel →
      natDigitsAux fuel n ≠ [] ∧ (∀ c ∈ natDigitsAux fuel n, isDigitChar c = true) ∧
        digitsVal (natDigitsAux fuel n) = n := by
  induction fuel with
  | zero => intro n h; omega
  | succ fuel ih =>
    intro n h
    by_cases h10 : n < 10
    · refine ⟨?_, ?_, ?_⟩ <;> simp only [natDigitsAux, if_pos h10]
      · simp
      · intro c hc
        simp only [List.mem_singleton] at hc
        subst hc
        exact isDigitChar_ofNat n h10
      · have hv : digitsVal [Char.ofNat (48 + n)] = (Char.ofNat (48 + n)).toNat - 48 := by
          simp [digitsVal]
        rw [hv, toNat_ofNat_digit n h10]
        omega
    · have hdiv : n / 10 < n := Nat.div_lt_self (by omega) (by omega)
      have hrec : n / 10 < fuel := by omega
      obtain ⟨hne, hdig, hval⟩ := ih (n / 10) hrec
      have hmod : n % 10 < 10 := Nat.mod_lt _ (by omega)
      refine ⟨?_, ?_, ?_⟩ <;> simp only [natDigitsAux, if_neg h10]
      · simp
      · intro c hc
        rcases List.mem_append.mp hc with h1 | h1
        · exact hdig c h1
        · simp only [List.mem_singleton] at h1
          subst h1
          exact isDigitChar_ofNat _ hmod
      · rw [digitsVal_append_singleton, hval, toNat_ofNat_digit _ hmod]
        omega

lemma natDigits_ne_nil (n : Nat) : natDigits n ≠ [] :=
  (natDigitsAux_spec (n + 1) n (by omega)).1

lemma natDigits_all_digits (n : Nat) : ∀ c ∈ natDigits n, isDigitChar c = true :=
  (natDigitsAux_spec (n + 1) n (by omega)).2.1

lemma digitsVal_natDigits (n : Nat) : digitsVal (natDigits n) = n :=
  (natDigitsAux_spec (n + 1) n (by omega)).2.2

lemma digit_char_facts {c : Char} (h : isDigitChar c = true) :
    isJsSpace c = false ∧ c ≠ '-' ∧ c ≠ '+' ∧ c ≠ '$' ∧ c ≠ ',' ∧ c ≠ '.' := by
  simp only [isDigitChar, Bool.and_eq_true, decide_eq_true_eq] at h
  refine ⟨?_, ?_, ?_, ?_, ?_, ?_⟩
  · simp only [isJsSpace, Bool.or_eq_false_iff, decide_eq_false_iff_not]
    omega
  · rintro rfl; exact absurd h (by decide)
  · rintro rfl; exact absurd h (by decide)
  · rintro rfl; exact absurd h (by decide)
  · rintro rfl; exact absurd h (by decide)
  · rintro rfl; exact absurd h (by decide)

lemma takeWhile_eq_self {p : Char → Bool} :
    ∀ {cs : List Char}, (∀ c ∈ cs, p c = true) → cs.takeWhile p = cs := by
  intro cs
  induction cs with
  | nil => intro _; rfl
  | cons a l ih =>
    intro h
    rw [List.takeWhile_cons, if_pos (h a (by simp))]
    rw [ih (fun c hc => h c (by simp [hc]))]

lemma dropWhile_eq_self {p : Char → Bool} {cs : List Char}
    (h : ∀ c ∈ cs, p c = false) : cs.dropWhile p = cs := by
  cases cs with
  | nil => rfl
  | cons a l =>
    rw [List.dropWhile_cons, if_neg]
    simp [h a (by simp)]

lemma trimChars_eq_self {cs : List Char} (h : ∀ c ∈ cs, isJsSpace c = false) :
    trimChars cs = cs := by
  unfold trimChars
  rw [dropWhile_eq_self h,
    dropWhile_eq_self (fun c hc => h c (List.mem_reverse.mp hc)),
    List.reverse_reverse]

lemma parseIntChars_of_digits {ds : List Char} (hne : ds ≠ [])
    (hall : ∀ c ∈ ds, isDigitChar c = true) :
    parseIntChars ds = some ((digitsVal ds : Nat) : Int) := by
  rcases ds with _ | ⟨c, rest⟩
  · exact absurd rfl hne
  obtain ⟨hsp, hminus, hplus, _, _, _⟩ := digit_char_facts (hall c (by simp))
  have hdrop : (c :: rest).dropWhile isJsSpace = c :: rest :=
    dropWhile_eq_self (fun x hx => (digit_char_facts (hall x hx)).1)
  have htake : (c :: rest).takeWhile isDigitChar = c :: rest := takeWhile_eq_self hall
  unfold parseIntChars
  rw [hdrop]
  have hdg : digitsOfChars (c :: rest) = some (digitsVal (c :: rest)) := by
    unfold digitsOfChars
    rw [htake]
  split
  · next heq =>
    obtain ⟨hc, -⟩ := List.cons.injEq .. ▸ heq
    exact absurd hc hminus
  · next heq =>
    obtain ⟨hc, -⟩ := List.cons.injEq .. ▸ heq
    exact absurd hc hplus
  · next => rw [hdg]; rfl

lemma padTwo_ne_nil (ds : List Char) : padTwo ds ≠ [] := by
  unfold padTwo
  split
  · rcases ds with _ | _
    · simp_all
    · simp
  · split <;> simp

lemma padTwo_all_digits {ds : List Char} (h : ∀ c ∈ ds, isDigitChar c = true) :
    ∀ c ∈ padTwo ds, isDigitChar c = true := by
  intro c hc
  unfold padTwo at hc
  split at hc
  · exact h c hc
  · split at hc
    · rcases List.mem_cons.mp hc with rfl | hm
      · decide
      · exact h c hm
    · rcases List.mem_cons.mp hc with rfl | hm
      · decide
      · simp only [List.mem_singleton] at hm
        subst hm
        decide

lemma digitsVal_cons_zero (ds : List Char) : digitsVal ('0' :: ds) = digitsVal ds := by
  simp [digitsVal]

lemma parseIntChars_padTwo {ds : List Char} (hne : ds ≠ [])
    (hall : ∀ c ∈ ds, isDigitChar c = true) :
    parseIntChars (padTwo ds) = some ((digitsVal ds : Nat) : Int) := by
  unfold padTwo
  split
  · exact parseIntChars_of_digits hne hall
  · split
    · next hlen =>
      have hall2 : ∀ c ∈ '0' :: ds, isDigitChar c = true := by
        intro c hc
        rcases List.mem_cons.mp hc with rfl | hm
        · decide
        · exact hall c hm
      rw [parseIntChars_of_digits (by simp) hall2, digitsVal_cons_zero]
    · next h2 h1 =>
      rcases ds with _ | ⟨c, rest⟩
      · exact absurd rfl hne
      · rcases rest with _ | _
        · simp at h1
        · simp at h2

lemma splitChars_cons (sep c : Char) (rest : List Char) :
    splitChars sep (c :: rest) =
      match splitChars sep rest with
      | [] => [[c]]
      | h :: t => if c = sep then [] :: h :: t else (c :: h) :: t := rfl

lemma splitChars_ne_nil (sep : Char) : ∀ cs, splitChars sep cs ≠ [] := by
  intro cs
  cases cs with
  | nil => simp [splitChars]
  | cons c rest =>
    rw [splitChars_cons]
    rcases splitChars sep rest with _ | ⟨h, t⟩
    · simp
    · by_cases hc : c = sep <;> simp [hc]

lemma splitChars_of_not_mem {sep : Char} :
    ∀ {cs : List Char}, sep ∉ cs → splitChars sep cs = [cs] := by
  intro cs
  induction cs with
  | nil => intro _; rfl
  | cons c rest ih =>
    intro h
    have hcr : c ≠ sep := fun heq => h (heq ▸ List.mem_cons_self c rest)
    have hrest : sep ∉ rest := fun hm => h (List.mem_cons_of_mem c hm)
    unfold splitChars
    rw [ih hrest]
    simp [hcr]

lemma splitChars_append {sep : Char} :
    ∀ {xs : List Char} (ys : List Char), sep ∉ xs →
      splitChars sep (xs ++ sep :: ys) = xs :: splitChars sep ys := by
  intro xs
  induction xs with
  | nil =>
    intro ys _
    rcases hr : splitChars sep ys with _ | ⟨h, t⟩
    · exact absurd hr (splitChars_ne_nil sep ys)
    · simp [splitChars, hr]
  | cons x xs ih =>
    intro ys h
    have hx : x ≠ sep := fun heq => h (heq ▸ List.mem_cons_self x xs)
    have hxs : sep ∉ xs := fun hm => h (List.mem_cons_of_mem x hm)
    simp only [List.cons_append]
    rw [splitChars_cons, ih ys hxs]
    simp [hx]

lemma filter_of_digits {ds : List Char} (h : ∀ c ∈ ds, isDigitChar c = true) :
    ds.filter (fun c => c ≠ '$' && c ≠ ',') = ds := by
  rw [List.filter_eq_self]
  intro a ha
  obtain ⟨-, -, -, h4, h5, -⟩ := digit_char_facts (h a ha)
  simp [h4, h5]

lemma fdiv_natCast_hundred (N : Nat) : Int.fdiv (N : Int) 100 = ((N / 100 : Nat) : Int) :=
  (Int.ofNat_fdiv N 100).symm

lemma natDigits_toList_facts (k : Nat) :
    (∀ c ∈ natDigits k, isJsSpace c = false) ∧ '.' ∉ natDigits k ∧ '$' ∉ natDigits k := by
  refine ⟨?_, ?_, ?_⟩
  · intro c hc
    exact (digit_char_facts (natDigits_all_digits k c hc)).1
  · intro hm
    exact (digit_char_facts (natDigits_all_digits k _ hm)).2.2.2.2.2 rfl
  · intro hm
    exact (digit_char_facts (natDigits_all_digits k _ hm)).2.2.2.1 rfl

lemma intDecString_natCast (k : Nat) : intDecString (k : Int) = String.mk (natDigits k) := by
  unfold intDecString
  rw [if_neg (by omega)]
  have h : ((k : Int)).toNat = k := by omega
  rw [h]

lemma format_dollar_toList (N : Nat) :
    (formatMonetaryAmount (some "$") (some (N : Int))).toList =
      '$' :: (natDigits (N / 100) ++ '.' :: padTwo (natDigits (N % 100))) := by
  have e1 : Int.fdiv (N : Int) 100 = ((N / 100 : Nat) : Int) := fdiv_natCast_hundred N
  have e2 : (N : Int) - ((N / 100 : Nat) : Int) * 100 = ((N % 100 : Nat) : Int) := by
    push_cast
    omega
  simp only [formatMonetaryAmount, Option.map, e1, jsMul, jsSub, e2, jsNumToString,
    intDecString_natCast]
  simp [String.toList, String.data_append]

lemma no_space_in_format_list (N : Nat) :
    ∀ c ∈ '$' :: (natDigits (N / 100) ++ '.' :: padTwo (natDigits (N % 100))),
      isJsSpace c = false := by
  intro c hc
  rcases List.mem_cons.mp hc with rfl | hc2
  · decide
  rcases List.mem_append.mp hc2 with h | h
  · exact (digit_char_facts (natDigits_all_digits _ c h)).1
  rcases List.mem_cons.mp h with rfl | h2
  · decide
  · exact (digit_char_facts (padTwo_all_digits (natDigits_all_digits _) c h2)).1

lemma moneyParts_format (N : Nat) :
    moneyParts (formatMonetaryAmount (some "$") (some (N : Int))) =
      [some ((N / 100 : Nat) : Int), some ((N % 100 : Nat) : Int)] := by
  have hW := natDigits_all_digits (N / 100)
  have hWne := natDigits_ne_nil (N / 100)
  have hFd : ∀ c ∈ padTwo (natDigits (N % 100)), isDigitChar c = true :=
    padTwo_all_digits (natDigits_all_digits (N % 100))
  have hFne := padTwo_ne_nil (natDigits (N % 100))
  have hdotW : '.' ∉ natDigits (N / 100) := fun hm =>
    (digit_char_facts (hW _ hm)).2.2.2.2.2 rfl
  have hdotF : '.' ∉ padTwo (natDigits (N % 100)) := fun hm =>
    (digit_char_facts (hFd _ hm)).2.2.2.2.2 rfl
  unfold moneyParts
  rw [format_dollar_toList, trimChars_eq_self (no_space_in_format_list N)]
  have hfil : ('$' :: (natDigits (N / 100) ++ '.' :: padTwo (natDigits (N % 100)))).filter
      (fun c => c ≠ '$' && c ≠ ',') =
      natDigits (N / 100) ++ '.' :: padTwo (natDigits (N % 100)) := by
    rw [List.filter_cons, if_neg (by decide), List.filter_append, filter_of_digits hW,
      List.filter_cons, if_pos (by decide), filter_of_digits hFd]
  simp only [hfil, splitChars_append _ hdotW, splitChars_of_not_mem hdotF,
    List.map_cons, List.map_nil, if_neg hWne, if_neg hFne,
    parseIntChars_of_digits hWne hW,
    parseIntChars_padTwo (natDigits_ne_nil (N % 100)) (natDigits_all_digits (N % 100)),
    digitsVal_natDigits]

lemma moneyCents_natCast_pair (w f : Nat) :
    moneyCents [some ((w : Nat) : Int), some ((f : Nat) : Int)] =
      some (((w * 100 + f : Nat) : Nat) : Int) := by
  have hsign : (if jsLt (some ((w : Nat) : Int)) 0 = true then (-1 : Int) else 1) = 1 := by
    rw [if_neg]
    simp only [jsLt, decide_eq_true_eq]
    omega
  simp only [moneyCents, List.headD_cons, List.get?_cons_succ, List.get?_cons_zero,
    hsign, jsMul, jsAdd, mul_one]
  congr 1
  by_cases h0 : ((f : Nat) : Int) = 0
  · rw [if_pos h0]
    omega
  · rw [if_neg h0]
    omega

lemma parse_format_dollar (N : Nat) :
    (parseMonetaryAmount (formatMonetaryAmount (some "$") (some (N : Int)))).map Money.cents =
      .ok (some (N : Int)) := by
  unfold parseMonetaryAmount
  rw [moneyParts_format, if_neg (by simp), moneyCents_natCast_pair]
  simp only [Except.map]
  congr 2
  omega

/-- The cents a successful `parseMonetaryAmount` returns are
`moneyCents` of the split parts. -/
lemma parse_ok_cents (s : String) (m : Money) (hp : parseMonetaryAmount s = .ok m) :
    m.cents = moneyCents (moneyParts s) := by
  unfold parseMonetaryAmount at hp
  split at hp
  · exact absurd hp (by simp)
  · rw [Except.ok.injEq] at hp
    subst hp
    rfl

/-- A state whose rules all fail to match a token returns itself with the
context untouched (the rule loop of `newParserState` falls off the end). -/
lemma runRules_no_match {σ τ : Type} (self : σ) (tok : String) :
    ∀ (rules : List (GRule σ τ)) (ctx : τ), (∀ r ∈ rules, r.m.run tok = none) →
      runRules self rules tok ctx = .ok (self, ctx) := by
  intro rules
  induction rules with
  | nil => intro ctx _; rfl
  | cons r rest ih =>
    intro ctx h
    unfold runRules
    rw [h r (by simp)]
    exact ih ctx (fun r2 hr2 => h r2 (by simp [hr2]))

/-!
## The claims
-/

/-- C1 (counterexample): on the claim's exact token sequence, the invoice
state-machine parser started in its initial `unknown` state matches no rule
on any token (the `unknown` state only recognizes the `Amazon.com - Order
<id>` page title, the v2 accessibility marker and the Whole Foods marker),
so the builder stays empty and building the order fails with `Total not
set` — the run does not succeed as the claim states. -/
theorem c1_end_to_end_counterexample :
    parseAndBuild c1Tokens = .error "Total not set" := by decide

/-- C1 (amended): with the first token in the `Amazon.com - Order <id>`
page-title form the `unknown` state actually recognizes, and with the
`Shipping Address: Shipping Speed: Payment information` token inserted
after the item price (the only way back from the items state to the
`online_order` state that consumes the subtotal/shipping/tax/total lines),
the parse succeeds and yields exactly the claimed order: id
`002-7394758-9918293`, date `1998-11-05`, one shipment with the single item
at 800 cents and quantity 1, subtotal 7715, tax 763, shipping 1155 and
total 9633 cents. -/
theorem c1_end_to_end_amended : parseAndBuild c1TokensAmended = .ok c1Expected := by decide

/-- C2 (counterexample): after consuming `Order Total: $16.98` and
`Gift Card Amount: -$18.46` (which records a 1846-cent gift-card payment
and turns on gift-card adjustment), `build()` does not report
`totalCents = 1846`. -/
theorem c2_gift_card_total_counterexample :
    c2Result.map Order.totalCents ≠ .ok (some 1846) := by decide

/-- C2 (amended): the order reports `totalCents = 3544` — the nominal total
(1698) plus the gift-card amount (1846), rendered as `$35.44` — not 1846
(and not the nominal 1698). -/
theorem c2_gift_card_total_amended :
    c2Result.map Order.totalCents = .ok (some 3544) ∧
    c2Result.map Order.total = .ok "$35.44" := ⟨by decide, by decide⟩

/-- C3 (counterexample): `setItemName` is a field setter with no conflict
check — calling it with `"a"` and then with the different value `"b"`
throws nothing (the method body contains no `throw`) and silently
overwrites the field with `"b"`, contradicting the claim that every setter
fails on a conflicting second value. -/
theorem c3_conflicting_setter_counterexample :
    ((OrderBuilder.setItemName {} "a").setItemName "b").lastItemD.name = some "b" := by
  decide

/-- C3 (amended): the conflict-checked setters behave as claimed — `setID`
with two different values fails with `ID already set` and with two equal
values never fails and keeps the value — but `setItemName`,
`setItemQuantity` and `setShippingDate` are exceptions that silently
overwrite the previous value. -/
theorem c3_setter_conflicts_amended (v w : String) (hne : v ≠ w) :
    (({} : OrderBuilder).setID v >>= fun b => b.setID w) = .error "ID already set" ∧
    (({} : OrderBuilder).setID v >>= fun b => b.setID v) = .ok { id := some v } ∧
    ((OrderBuilder.setItemName {} v).setItemName w).lastItemD.name = some w ∧
    ((OrderBuilder.setItemQuantity {} "1").setItemQuantity "2").lastItemD.quantity =
      some (some 2) ∧
    ((OrderBuilder.setShippingDate {} "2020" "January" "1").setShippingDate
      "2021" "February" "2").lastShipmentD.date = some "2021-02-02" := by
  refine ⟨?_, ?_, rfl, by decide, by decide⟩
  · simp [OrderBuilder.setID, Bind.bind, Except.bind, hne]
  · simp [OrderBuilder.setID, Bind.bind, Except.bind]

/-- C3 witness: the amended behavior at the concrete values `"a"` and
`"b"`. -/
theorem c3_setter_conflicts_witness :
    (({} : OrderBuilder).setID "a" >>= fun b => b.setID "b") = .error "ID already set" ∧
    (({} : OrderBuilder).setID "a" >>= fun b => b.setID "a") = .ok { id := some "a" } ∧
    ((OrderBuilder.setItemName {} "a").setItemName "b").lastItemD.name = some "b" ∧
    ((OrderBuilder.setItemQuantity {} "1").setItemQuantity "2").lastItemD.quantity =
      some (some 2) ∧
    ((OrderBuilder.setShippingDate {} "2020" "January" "1").setShippingDate
      "2021" "February" "2").lastShipmentD.date = some "2021-02-02" :=
  c3_setter_conflicts_amended "a" "b" (by decide)

/-- C4 (code bug): `build()` runs `ensure(order, "tax")` *before* the
infer-taxes branch, so with `inferTaxes()` active and no tax captured —
exactly the situation the method's own documentation describes ("Amazon is
not including tax information in the raw HTML") — `build()` throws
`tax not set` instead of deriving the tax; the derivation
`total − subtotal − shipping` only runs when a zero tax (`$0.00`) was
explicitly captured, and a nonzero captured tax fails as the claim's first
half states. -/
theorem c4_infer_taxes_requires_captured_tax :
    (c4Base >>= OrderBuilder.build) = .error "tax not set" ∧
    (c4Base >>= fun b => b.setTax "$0.00" >>= OrderBuilder.build).map Order.taxCents =
      .ok (some 100) ∧
    (c4Base >>= fun b => b.setTax "$0.50" >>= OrderBuilder.build) =
      .error "inferTaxes is set but order already has tax" :=
  ⟨by decide, by decide, by decide⟩

/-- C5: the year-list staleness policy of `scrapeOrdersForYear`: when the
year's order-list page is cached, a past (non-current) year is served from
the cache unconditionally; the current year is served from the cache
exactly when every invoice URL on the cached page has cached content, and
is fetched live when some invoice URL has none. -/
theorem c5_year_list_staleness (cache : String → Option String) (user root : String)
    (year nowYear : Int) (invoiceURLsOf : String → List String) (v : String)
    (hc : cache (cacheKey user (yearListURL root year)) = some v) :
    (year < nowYear →
      listPageSource cache user root year nowYear invoiceURLsOf = .fromCache v) ∧
    (¬ year < nowYear →
      (allInvoiceURLsCached cache user (invoiceURLsOf v) = true →
        listPageSource cache user root year nowYear invoiceURLsOf = .fromCache v) ∧
      (allInvoiceURLsCached cache user (invoiceURLsOf v) = false →
        listPageSource cache user root year nowYear invoiceURLsOf = .liveFetch)) := by
  have hkey : yearListCheckCache cache user year nowYear invoiceURLsOf
      (cacheKey user (yearListURL root year)) =
      (if year < nowYear then some v
       else if allInvoiceURLsCached cache user (invoiceURLsOf v) then some v else none) := by
    simp only [yearListCheckCache, hc]
  refine ⟨fun hpast => ?_, fun hcur => ⟨fun hall => ?_, fun hnot => ?_⟩⟩
  · simp only [listPageSource, hkey, if_pos hpast]
  · simp only [listPageSource, hkey, if_neg hcur, hall, if_pos trivial, if_true]
  · simp only [listPageSource, hkey, if_neg hcur, hnot, if_false, Bool.false_eq_true,
      if_neg (fun h => absurd h not_false)]

/-- C5 witness: a cached 2023 list page is reused in 2025 without a fetch,
and a cached current-year (2025) list page whose invoice URL has no cached
content is fetched live. -/
theorem c5_year_list_staleness_witness :
    listPageSource
      (fun k => if k = cacheKey "u" (yearListURL "https://www.amazon.com" 2023)
        then some "cached-list" else none)
      "u" "https://www.amazon.com" 2023 2025 (fun _ => ["inv1"]) = .fromCache "cached-list" ∧
    listPageSource
      (fun k => if k = cacheKey "u" (yearListURL "https://www.amazon.com" 2025)
        then some "cached-list" else none)
      "u" "https://www.amazon.com" 2025 2025 (fun _ => ["inv1"]) = .liveFetch := by
  constructor
  · exact (c5_year_list_staleness _ "u" "https://www.amazon.com" 2023 2025 _
      "cached-list" (by decide)).1 (by omega)
  · exact ((c5_year_list_staleness _ "u" "https://www.amazon.com" 2025 2025 _
      "cached-list" (by decide)).2 (by omega)).2 (by decide)

/-- C6 (counterexample): the round trip is not cents-preserving for
negative amounts: `parse "-$10.54"` gives −1054 cents, but `format`
renders the template `"-$10.54-"`-style value `"$-1054/100..."` wrongly —
concretely, re-parsing the formatted string yields −1146 cents, not
−1054. -/
theorem c6_money_roundtrip_counterexample :
    ((parseMonetaryAmount "-$10.54").bind
        (fun m => parseMonetaryAmount (formatMonetaryAmount m.currency m.cents))).map
      Money.cents ≠ (parseMonetaryAmount "-$10.54").map Money.cents ∧
    ((parseMonetaryAmount "-$10.54").bind
        (fun m => parseMonetaryAmount (formatMonetaryAmount m.currency m.cents))).map
      Money.cents = .ok (some (-1146)) ∧
    (parseMonetaryAmount "-$10.54").map Money.cents = .ok (some (-1054)) :=
  ⟨by decide, by decide, by decide⟩

/-- C6 (amended): the round trip is cents-preserving for every
successfully parsed dollar amount whose cents value is nonnegative:
re-parsing the formatted amount yields the same cents (group separators
are normalized away by `parse`, e.g. `"$1,234.50"` → 123450). Negative
amounts are excluded: `formatMonetaryAmount` floor-divides the cents,
which breaks the round trip for them. -/
theorem c6_money_roundtrip_amended (s : String) (m : Money) (n : Int)
    (_hp : parseMonetaryAmount s = .ok m) (hcur : m.currency = some "$")
    (hc : m.cents = some n) (hn : 0 ≤ n) :
    (parseMonetaryAmount (formatMonetaryAmount m.currency m.cents)).map Money.cents =
      .ok m.cents := by
  rw [hcur, hc]
  obtain ⟨N, rfl⟩ : ∃ N : Nat, n = (N : Int) := ⟨n.toNat, by omega⟩
  exact parse_format_dollar N

/-- C6 witness: the amended round trip at `"$1,234.50"` (cents 123450). -/
theorem c6_money_roundtrip_witness :
    (parseMonetaryAmount (formatMonetaryAmount (some "$") (some 123450))).map Money.cents =
      .ok (some 123450) :=
  c6_money_roundtrip_amended "$1,234.50"
    { currency := some "$", value := "$1,234.50", cents := some 123450 } 123450
    (by decide) rfl rfl (by omega)

/-- C7 (counterexample): the sign of the integer part is *not* applied to
the fractional part the way the claim says: the code multiplies the
fraction by `sign = parts[0] < 0 ? -1 : 1`, and `parseInt("-0") = 0` is
not `< 0`, so `"-$0.54"` yields +54 cents, not −54. -/
theorem c7_fraction_sign_counterexample :
    (parseMonetaryAmount "-$0.54").map Money.cents = .ok (some 54) ∧
    ¬ ∃ n : Int, n ≤ 0 ∧ (parseMonetaryAmount "-$0.54").map Money.cents = .ok (some n) := by
  refine ⟨by decide, ?_⟩
  rintro ⟨n, hn, he⟩
  have h1 : (parseMonetaryAmount "-$0.54").map Money.cents = .ok (some 54) := by decide
  rw [h1] at he
  have : (54 : Int) = n := by
    have := (Except.ok.injEq (ε := String) _ _).mp he
    exact Option.some.injEq _ _ ▸ congrArg (Option.getD · 0) this
  omega

/-- C7 (amended): when the integer part parses to a strictly negative
number (so the `-0.xx` edge case is excluded) and the fractional part, if
present, parses to a nonnegative number, the cents value is strictly
negative — `"-$10.54"` does give −1054 as the claim's example says. -/
theorem c7_fraction_sign_amended (s : String) (m : Money) (w : Int)
    (hp : parseMonetaryAmount s = .ok m)
    (hw : (moneyParts s).headD (some 0) = some w) (hneg : w < 0)
    (hf : ∀ f : Int, (moneyParts s).get? 1 = some (some f) → 0 ≤ f) :
    ∃ n : Int, m.cents = some n ∧ n < 0 := by
  rw [parse_ok_cents s m hp]
  have hs : jsLt (some w) 0 = true := decide_eq_true hneg
  rcases hget : (moneyParts s).get? 1 with _ | f2
  · simp only [moneyCents, hw, hget, hs, if_true, jsMul, jsAdd]
    exact ⟨w * 100 + 0 * (-1), rfl, by omega⟩
  · rcases f2 with _ | f
    · simp only [moneyCents, hw, hget, hs, if_true, jsMul, jsAdd]
      exact ⟨w * 100 + 0 * (-1), rfl, by omega⟩
    · have hf0 := hf f hget
      by_cases h0 : f = 0
      · subst h0
        simp only [moneyCents, hw, hget, hs, if_true, if_pos rfl, jsMul, jsAdd]
        exact ⟨w * 100 + 0 * (-1), rfl, by omega⟩
      · simp only [moneyCents, hw, hget, hs, if_true, if_neg h0, jsMul, jsAdd]
        exact ⟨w * 100 + f * (-1), rfl, by omega⟩

/-- C7 witness: the amended sign behavior at `"-$10.54"`, whose cents are
−1054. -/
theorem c7_fraction_sign_witness :
    ∃ n : Int, (Money.mk (some "$") "-$10.54" (some (-1054))).cents = some n ∧ n < 0 :=
  c7_fraction_sign_amended "-$10.54" ⟨some "$", "-$10.54", some (-1054)⟩ (-10)
    (by decide) (by decide) (by decide)
    (fun f h => by
      have h54 : (moneyParts "-$10.54").get? 1 = some (some 54) := by decide
      rw [h54] at h
      simp at h
      omega)

/-- C8: for every state (a rule list selected by the state's identity) and
every token matched by none of its rules, feeding the token neither errors
nor changes state — the rule loop of `newParserState` falls off the end and
the state re-enters itself — and one engine iteration of `createParser`
reports no `onStateChange` firing; moreover, for every engine iteration
whatsoever, the hook fires exactly when the returned state differs from the
current one. -/
theorem c8_unmatched_token (σ τ : Type) [DecidableEq σ] (env : σ → List (GRule σ τ))
    (s : σ) (tok : String) (ctx : τ)
    (h : ∀ r ∈ env s, r.m.run tok = none) :
    runRules s (env s) tok ctx = .ok (s, ctx) ∧
    engineStep (fun s2 t c => runRules s2 (env s2) t c) s tok ctx = .ok (s, ctx, false) ∧
    ∀ (s0 : σ) (tok0 : String) (ctx0 : τ) (s2 : σ) (ctx2 : τ) (hook : Bool),
      engineStep (fun s3 t c => runRules s3 (env s3) t c) s0 tok0 ctx0 =
        .ok (s2, ctx2, hook) →
      (hook = true ↔ s2 ≠ s0) := by
  have h1 := runRules_no_match s tok (env s) ctx h
  refine ⟨h1, ?_, ?_⟩
  · simp [engineStep, h1]
  · intro s0 tok0 ctx0 s2 ctx2 hook he
    simp only [engineStep] at he
    rcases hr : runRules s0 (env s0) tok0 ctx0 with e | ⟨n, c⟩
    · rw [hr] at he
      exact absurd he (by simp)
    · rw [hr] at he
      simp only [Except.ok.injEq, Prod.mk.injEq] at he
      obtain ⟨h2, -, h4⟩ := he
      subst h2
      subst h4
      simp

/-- C8 witness: the `unknown` state of the invoice parser on the
unrecognized token `"zzz"` with an empty builder: no error, same state,
untouched builder. -/
theorem c8_unmatched_token_witness :
    runRules StId.unknown (rulesOf StId.unknown) "zzz" ({} : OrderBuilder) =
      .ok (StId.unknown, ({} : OrderBuilder)) :=
  (c8_unmatched_token StId OrderBuilder rulesOf .unknown "zzz" {} (by decide)).1

/-- C9 (code bug): the orchestrator of `part_002` never consults
`onBeforeOrderScrape` — `scrapeOrder` goes straight from the cache check to
scraping, and the order loop of `scrapeOrdersForYear` calls it for every
invoice URL with no intervening hook — so for every user and every list of
invoice URLs, the event trace contains no hook consultation at all, yet
every order on the page is scraped. -/
theorem c9_order_hook_never_consulted (user : String) (urls : List String) :
    (yearOrderLoopEvents user urls).filter isOrderHookEvent = [] ∧
    (yearOrderLoopEvents user urls).filterMap
        (fun e => match e with | .orderScraped u => some u | _ => none) = urls := by
  induction urls with
  | nil => exact ⟨rfl, rfl⟩
  | cons u rest ih =>
    refine ⟨?_, ?_⟩
    · simp [yearOrderLoopEvents, scrapeOrderEvents, isOrderHookEvent]
    · simpa [yearOrderLoopEvents, scrapeOrderEvents] using ih.2

/-- C10: with the default no-op `onBeforeYearScrape` of `DEFAULTS`,
`Scraper.scrape()` substitutes the fallback action `"SCRAPE"`, which
matches no case of the year-action switch, so for every nonempty year list
it rejects with `Unknown action "SCRAPE" for year <first year>` and
scrapes nothing. -/
theorem c10_default_year_hook_throws (years : List Int) (y : Int) (rest : List Int)
    (hy : years = y :: rest) :
    scrapeAllYears defaultOnBeforeYearScrape years =
      .error ("Unknown action \"SCRAPE\" for year " ++ intDecString y) := by
  subst hy
  rfl

/-- C10 witness: the default hook on the year list `[2024]`. -/
theorem c10_default_year_hook_throws_witness :
    scrapeAllYears defaultOnBeforeYearScrape [2024] =
      .error "Unknown action \"SCRAPE\" for year 2024" :=
  c10_default_year_hook_throws [2024] 2024 [] rfl
